import Mathlib

/-!
# SpendSense — verification of the core engines

A shallow embedding, in Lean 4, of the analytical core of the SpendSense
backend (feature detection, persona classification, guardrails, product
matching, and the recommendation approval state machine), together with
theorems settling the specification claims.

Conventions of the embedding:
* Python `float` amounts, balances, utilizations, scores and confidences
  are modelled as `ℚ` (exact rationals).  Threshold comparisons in the
  source involve only short decimal literals, which are exact in `ℚ`.
  The one genuinely irrational operation, `statistics.stdev`'s square
  root, is modelled by `Rat.sqrt` (its value is irrelevant to every
  claim below).
* Dates are modelled as integer day numbers (`Int`); the Python day gap
  `(d2 - d1).days` is `d2 - d1`.
* Nullable SQL columns read through Python's `x or default` / `is None`
  idioms are modelled as `Option`; nullable `Boolean` columns are
  collapsed to `Bool`, because every read site (`== True`, `or False`,
  truthiness) treats `NULL` exactly as `False`.
* The relational store is modelled as explicit lists of rows; a query is
  a `List.filter`, and `ORDER BY date ASC` / `sorted(...)` is a stable
  insertion sort.
* Fallible endpoints return `Except ApiErr`; raising an HTTPException
  before `db.commit()` leaves the store unchanged, which the embedding
  reflects by returning an error without producing a new store.
* Human-readable reason/message strings that interpolate formatted
  floats are abstracted to tags or fixed strings; their presence and
  count are preserved exactly.
-/

namespace SpendSense

/-! ## Small list/string utilities shared by the embedding -/

/-- Consecutive-difference list: `gapsOf [d₀, d₁, d₂, …] = [d₁-d₀, d₂-d₁, …]`.
Mirrors the `for i in range(len(dates)-1)` gap loops of
`feature_detection.py`. -/
def gapsOf : List Int → List Int
  | d₁ :: d₂ :: rest => (d₂ - d₁) :: gapsOf (d₂ :: rest)
  | _ => []

/-- Stable ascending insertion of an element by an integer key. -/
def insertAscBy {α : Type} (key : α → Int) (a : α) : List α → List α
  | [] => [a]
  | b :: l => if key a ≤ key b then a :: b :: l else b :: insertAscBy key a l

/-- Stable ascending sort by an integer key (models Python's stable
`sorted(..., key=...)` / `ORDER BY date ASC`). -/
def sortAscBy {α : Type} (key : α → Int) : List α → List α
  | [] => []
  | a :: l => insertAscBy key a (sortAscBy key l)

/-- Python `sorted` on a plain list of day numbers. -/
def sortDates (l : List Int) : List Int := sortAscBy id l

/-- First-occurrence deduplication (iteration order of a Python dict
built by insertion). -/
def dedupKeepFirst : List String → List String
  | [] => []
  | x :: l => x :: dedupKeepFirst (l.filter fun y => y ≠ x)
termination_by l => l.length
decreasing_by simp_wf; exact Nat.lt_succ_of_le (List.length_filter_le _ _)

/-- Replace the first element satisfying `p` (the row found by a keyed
`.first()` query) by `f` of it. -/
def updateFirst {α : Type} (p : α → Bool) (f : α → α) : List α → List α
  | [] => []
  | a :: l => if p a then f a :: l else a :: updateFirst p f l

/-- Occurrence of `pat` as a contiguous run inside `hay` (Python's
`pat in hay` on strings, viewed on character lists). -/
def charsContain (pat : List Char) : List Char → Bool
  | [] => pat.isPrefixOf []
  | c :: rest => pat.isPrefixOf (c :: rest) || charsContain pat rest

/-- Python `s.lower()` as a character list (all inputs are ASCII). -/
def lowerChars (s : String) : List Char := s.data.map Char.toLower

/-- Python `s.upper()` as a character list (all inputs are ASCII). -/
def upperChars (s : String) : List Char := s.data.map Char.toUpper

/-- Python `pat in hay` (case sensitive). -/
def strContains (hay pat : String) : Bool := charsContain pat.data hay.data

/-- Python `phrase in content.lower()` for a lowercase constant `phrase`. -/
def containsLower (content phrase : String) : Bool :=
  charsContain phrase.data (lowerChars content)

/-- Python `s.strip()` on a character list. -/
def stripChars (l : List Char) : List Char :=
  ((l.dropWhile Char.isWhitespace).reverse.dropWhile Char.isWhitespace).reverse

/-- Python truthiness of an `Optional[str]`: `None` and `""` are falsy. -/
def optStrTruthy : Option String → Bool
  | none => false
  | some s => s ≠ ""

/-- Embeds `statistics.median` of an integer list, as an exact rational. -/
def medianInt (l : List Int) : ℚ :=
  let s := sortDates l
  let n := s.length
  if n = 0 then 0
  else if n % 2 = 1 then (s.getD (n / 2) 0 : ℚ)
  else ((s.getD (n / 2 - 1) 0 : ℚ) + (s.getD (n / 2) 0 : ℚ)) / 2

/-- Python `int(x)`: truncation toward zero. -/
def ratTrunc (q : ℚ) : Int := if 0 ≤ q then ⌊q⌋ else ⌈q⌉

/-- Embeds `statistics.mean`. -/
def meanQ (l : List ℚ) : ℚ := l.sum / l.length

/-- The sample variance underlying `statistics.stdev`. -/
def sampleVariance (l : List ℚ) : ℚ :=
  let μ := meanQ l
  ((l.map fun x => (x - μ) ^ 2).sum) / ((l.length : ℚ) - 1)

/-- Embeds `statistics.stdev`, with `Rat.sqrt` standing in for the float square
root (see the header note). -/
def stdevQ (l : List ℚ) : ℚ := Rat.sqrt (sampleVariance l)

/-- Python `round(x, 2)` (round half to even at two decimals). -/
def roundHalfEven (q : ℚ) : Int :=
  let f := ⌊q⌋
  let frac := q - f
  if frac < 1 / 2 then f
  else if frac > 1 / 2 then f + 1
  else if f % 2 = 0 then f else f + 1

/-- Python `round(x, 2)` as an exact rational. -/
def round2 (q : ℚ) : ℚ := (roundHalfEven (q * 100) : ℚ) / 100

/-! ## Data model rows — `app/models.py` -/

/-- A `Transaction` row; the columns the core engines read. -/
structure Txn where
  transaction_id : String
  account_id : String
  user_id : String
  date : Int
  amount : ℚ
  merchant_name : Option String := none
  payment_channel : Option String := none
  category_primary : Option String := none
  category_detailed : Option String := none
deriving DecidableEq, Repr

/-- An `Account` row; the columns the core engines read. -/
structure Account where
  account_id : String
  user_id : String
  type : String
  balance_current : Option ℚ := none
  balance_limit : Option ℚ := none
deriving DecidableEq, Repr

/-- A `Liability` row; the columns the core engines read. -/
structure Liab where
  account_id : String
  user_id : String
  liability_type : String
  minimum_payment_amount : Option ℚ := none
  last_payment_amount : Option ℚ := none
  is_overdue : Bool := false
deriving DecidableEq, Repr

/-- The ~20 signal columns of a `UserFeature` row. -/
structure UserFeature where
  recurring_merchants : Option Int := none
  monthly_recurring_spend : Option ℚ := none
  subscription_spend_share : Option ℚ := none
  net_savings_inflow : Option ℚ := none
  savings_growth_rate : Option ℚ := none
  emergency_fund_months : Option ℚ := none
  avg_utilization : Option ℚ := none
  max_utilization : Option ℚ := none
  utilization_30_flag : Bool := false
  utilization_50_flag : Bool := false
  utilization_80_flag : Bool := false
  minimum_payment_only_flag : Bool := false
  interest_charges_present : Bool := false
  any_overdue : Bool := false
  payroll_detected : Bool := false
  median_pay_gap_days : Option Int := none
  income_variability : Option ℚ := none
  cash_flow_buffer_months : Option ℚ := none
  avg_monthly_income : Option ℚ := none
  investment_account_detected : Bool := false
deriving DecidableEq, Repr

/-- A stored `UserFeature` row: the `(user_id, window_days)` key plus the
signal values (unique-constrained on the key). -/
structure FeatureRow where
  user_id : String
  window_days : Int
  features : UserFeature
deriving DecidableEq, Repr

/-- The slice of the relational store the Feature Detection Engine
reads and writes.  `today` fixes `date.today()`. -/
structure DB where
  today : Int
  transactions : List Txn
  accounts : List Account
  liabilities : List Liab
  user_features : List FeatureRow
deriving Repr

/-- The `savings_account_types` list (`feature_detection.py:219`). -/
def savings_account_types : List String :=
  ["savings", "money market", "cash management", "HSA"]

/-- The `investment_account_types` list (`feature_detection.py:635`). -/
def investment_account_types : List String :=
  ["brokerage", "401k", "ira", "roth_ira", "investment", "pension"]

/-! ## Feature Detection Engine — `services/feature_detection.py` -/

/-- Embeds `get_transactions_in_window` (`feature_detection.py:29`):
the user's transactions from the trailing window, date ascending. -/
def get_transactions_in_window (db : DB) (user_id : String) (window_days : Int) : List Txn :=
  sortAscBy (·.date)
    (db.transactions.filter fun t =>
      t.user_id == user_id && t.date ≥ db.today - window_days)

/-- Embeds `get_accounts_by_type` (`feature_detection.py:53`). -/
def get_accounts_by_type (db : DB) (user_id : String) (account_types : List String) :
    List Account :=
  db.accounts.filter fun a => a.user_id == user_id && account_types.contains a.type

/-- Embeds `is_recurring_pattern(dates, tolerance_days=5)`
(`feature_detection.py:79`): fewer than 3 dates is never recurring;
otherwise recurring iff for one of the common intervals 7, 30, 90 at
least 60% of the consecutive-date gaps lie within `± tolerance_days` of
that interval. -/
def is_recurring_pattern (dates : List Int) (tolerance_days : Int := 5) : Bool :=
  if dates.length < 3 then
    false
  else
    let gaps := gapsOf dates
    let common_intervals : List Int := [7, 30, 90]
    common_intervals.any fun interval =>
      let matching_gaps := gaps.filter fun g => (g - interval).natAbs ≤ tolerance_days.natAbs
      (matching_gaps.length : ℚ) ≥ (gaps.length : ℚ) * 0.6

/-- Result of `compute_subscription_signals`. -/
structure SubscriptionSignals where
  recurring_merchants : Int
  monthly_recurring_spend : ℚ
  subscription_spend_share : ℚ
deriving DecidableEq, Repr

/-- Embeds `compute_subscription_signals` (`feature_detection.py:118`). -/
def compute_subscription_signals (db : DB) (user_id : String) (window_days : Int) :
    SubscriptionSignals :=
  let transactions := get_transactions_in_window db user_id window_days
  if transactions.isEmpty then ⟨0, 0, 0⟩
  else
    let merchant_names := dedupKeepFirst (transactions.filterMap (·.merchant_name))
    let groups := merchant_names.map fun name =>
      transactions.filter fun t => t.merchant_name == some name
    let recurring_groups := groups.filter fun g =>
      g.length ≥ 3 && is_recurring_pattern (sortDates (g.map (·.date))) 5
    let recurring_spend := (recurring_groups.map fun g => (g.map fun t => |t.amount|).sum).sum
    let total_spend := (transactions.map fun t => |t.amount|).sum
    let months_in_window : ℚ := (window_days : ℚ) / 30
    let monthly_recurring_spend :=
      if months_in_window > 0 then recurring_spend / months_in_window else 0
    let subscription_spend_share :=
      if total_spend > 0 then recurring_spend / total_spend else 0
    ⟨recurring_groups.length, monthly_recurring_spend, subscription_spend_share⟩

/-- Result of `compute_savings_signals`. -/
structure SavingsSignals where
  net_savings_inflow : ℚ
  savings_growth_rate : ℚ
  emergency_fund_months : ℚ
deriving DecidableEq, Repr

/-- Transactions of one account inside the window (the per-account
queries of `compute_savings_signals`, unsorted `.all()`). -/
def accountTxnsInWindow (db : DB) (account_id : String) (window_days : Int) : List Txn :=
  db.transactions.filter fun t =>
    t.account_id == account_id && t.date ≥ db.today - window_days

/-- Embeds `compute_savings_signals` (`feature_detection.py:198`). -/
def compute_savings_signals (db : DB) (user_id : String) (window_days : Int) :
    SavingsSignals :=
  let savings_accounts := get_accounts_by_type db user_id savings_account_types
  if savings_accounts.isEmpty then ⟨0, 0, 0⟩
  else
    let netOf := fun (acc : Account) =>
      ((accountTxnsInWindow db acc.account_id window_days).map (·.amount)).sum
    let total_net_inflow := (savings_accounts.map netOf).sum
    let account_growth_rates := savings_accounts.filterMap fun acc =>
      let net := netOf acc
      let current_balance := acc.balance_current.getD 0
      let start_balance := current_balance - net
      if start_balance > 0 then some ((current_balance - start_balance) / start_balance)
      else if start_balance = 0 ∧ current_balance > 0 then some 1
      else none
    let months_in_window : ℚ := (window_days : ℚ) / 30
    let net_savings_inflow :=
      if months_in_window > 0 then total_net_inflow / months_in_window else 0
    let savings_growth_rate :=
      if account_growth_rates.isEmpty then 0
      else account_growth_rates.sum / account_growth_rates.length
    let total_savings_balance := (savings_accounts.map fun a => a.balance_current.getD 0).sum
    let checking_accounts := get_accounts_by_type db user_id ["checking"]
    let avg_monthly_expenses :=
      if checking_accounts.isEmpty then 0
      else
        let checking_transactions :=
          (checking_accounts.map fun acc =>
            accountTxnsInWindow db acc.account_id window_days).flatten
        let total_expenses :=
          ((checking_transactions.filter fun t => t.amount < 0).map fun t => |t.amount|).sum
        if months_in_window > 0 then total_expenses / months_in_window else 0
    let emergency_fund_months :=
      if avg_monthly_expenses > 0 then total_savings_balance / avg_monthly_expenses else 0
    ⟨net_savings_inflow, savings_growth_rate, emergency_fund_months⟩

/-- Result of `compute_credit_signals`. -/
structure CreditSignals where
  avg_utilization : ℚ
  max_utilization : ℚ
  utilization_30_flag : Bool
  utilization_50_flag : Bool
  utilization_80_flag : Bool
  minimum_payment_only_flag : Bool
  interest_charges_present : Bool
  any_overdue : Bool
deriving DecidableEq, Repr

/-- Embeds `compute_credit_signals` (`feature_detection.py:319`). -/
def compute_credit_signals (db : DB) (user_id : String) (window_days : Int) :
    CreditSignals :=
  let credit_card_accounts := get_accounts_by_type db user_id ["credit card"]
  if credit_card_accounts.isEmpty then ⟨0, 0, false, false, false, false, false, false⟩
  else
    let account_ids := credit_card_accounts.map (·.account_id)
    let liabilities := db.liabilities.filter fun l =>
      l.user_id == user_id && account_ids.contains l.account_id &&
        l.liability_type == "credit_card"
    -- the dict comprehension `{l.account_id: l for l in liabilities}`: last wins
    let liability_by_account := fun (aid : String) =>
      (liabilities.filter fun l => l.account_id == aid).getLast?
    let utilizations := credit_card_accounts.filterMap fun a =>
      if a.balance_limit.getD 0 > 0
      then some (a.balance_current.getD 0 / a.balance_limit.getD 0)
      else none
    let max_utilization := utilizations.foldl (fun mx u => if u > mx then u else mx) 0
    let utilization_80_flag := utilizations.any fun u => u ≥ 0.80
    let utilization_50_flag := utilizations.any fun u => u ≥ 0.50
    let utilization_30_flag := utilizations.any fun u => u ≥ 0.30
    let avg_utilization :=
      if utilizations.isEmpty then 0 else utilizations.sum / utilizations.length
    let minimum_payment_only_flag := credit_card_accounts.any fun a =>
      match liability_by_account a.account_id with
      | some l =>
        match l.minimum_payment_amount, l.last_payment_amount with
        | some minimum_payment, some last_payment => last_payment ≤ minimum_payment + 5
        | _, _ => false
      | none => false
    let interest_charges_present := db.transactions.any fun t =>
      t.user_id == user_id && account_ids.contains t.account_id &&
        t.date ≥ db.today - window_days &&
        (match t.category_detailed with
         | some c => charsContain ("interest").data (lowerChars c)
         | none => false)
    let any_overdue := liabilities.any (·.is_overdue)
    ⟨avg_utilization, max_utilization, utilization_30_flag, utilization_50_flag,
     utilization_80_flag, minimum_payment_only_flag, interest_charges_present, any_overdue⟩

/-- Result of `compute_income_signals`. -/
structure IncomeSignals where
  payroll_detected : Bool
  median_pay_gap_days : Option Int
  income_variability : ℚ
  cash_flow_buffer_months : ℚ
  avg_monthly_income : ℚ
deriving DecidableEq, Repr

/-- The payroll-candidate filter of `compute_income_signals`
(`feature_detection.py:497`). -/
def isPayrollTxn (t : Txn) : Bool :=
  let is_ach :=
    match t.payment_channel with
    | some pc => upperChars pc == ("ACH").data
    | none => false
  let is_deposit := t.amount > 0
  let is_income_category :=
    match t.category_primary with
    | some c => (["income", "payroll", "salary"].map String.data).contains (lowerChars c)
    | none => false
  let is_payroll_merchant :=
    match t.merchant_name with
    | some m =>
      charsContain ("PAYROLL").data (upperChars m) ||
        charsContain ("SALARY").data (upperChars m)
    | none => false
  is_deposit && (is_ach || is_income_category || is_payroll_merchant)

/-- Embeds `compute_income_signals` (`feature_detection.py:469`). -/
def compute_income_signals (db : DB) (user_id : String) (window_days : Int) :
    IncomeSignals :=
  let transactions := get_transactions_in_window db user_id window_days
  let payroll_transactions := sortAscBy (·.date) (transactions.filter isPayrollTxn)
  if payroll_transactions.length < 2 then ⟨false, none, 0, 0, 0⟩
  else
    let dates := payroll_transactions.map (·.date)
    let gaps := gapsOf dates
    let median_pay_gap_days :=
      if gaps.isEmpty then none else some (ratTrunc (medianInt gaps))
    let payroll_amounts := payroll_transactions.map (·.amount)
    let mean_amount := meanQ payroll_amounts
    let std_dev := if payroll_amounts.length > 1 then stdevQ payroll_amounts else 0
    let income_variability :=
      if mean_amount > 0 ∧ payroll_amounts.length > 1 then std_dev / mean_amount else 0
    let months_in_window : ℚ := (window_days : ℚ) / 30
    let total_payroll := payroll_amounts.sum
    let avg_monthly_income :=
      if months_in_window > 0 then round2 (total_payroll / months_in_window) else 0
    let checking_accounts := get_accounts_by_type db user_id ["checking"]
    let current_checking_balance :=
      (checking_accounts.map fun a => a.balance_current.getD 0).sum
    let avg_monthly_expenses :=
      if checking_accounts.isEmpty then 0
      else
        let checking_account_ids := checking_accounts.map (·.account_id)
        let expense_transactions := db.transactions.filter fun t =>
          t.user_id == user_id && checking_account_ids.contains t.account_id &&
            t.date ≥ db.today - window_days && t.amount < 0
        let total_expenses := (expense_transactions.map fun t => |t.amount|).sum
        if months_in_window > 0 then total_expenses / months_in_window else 0
    let cash_flow_buffer_months :=
      if avg_monthly_expenses > 0 then current_checking_balance / avg_monthly_expenses else 0
    ⟨true, median_pay_gap_days, income_variability, cash_flow_buffer_months,
     avg_monthly_income⟩

/-- Embeds `detect_investment_accounts` (`feature_detection.py:624`). -/
def detect_investment_accounts (db : DB) (user_id : String) : Bool :=
  (get_accounts_by_type db user_id investment_account_types).length > 0

/-- The merged `all_features` dict of `compute_all_features`
(`feature_detection.py:676`): the five signal groups have disjoint keys,
so the merge is a plain record build. -/
def mergeFeatures (sub : SubscriptionSignals) (sav : SavingsSignals)
    (cred : CreditSignals) (inc : IncomeSignals) (invest : Bool) : UserFeature where
  recurring_merchants := some sub.recurring_merchants
  monthly_recurring_spend := some sub.monthly_recurring_spend
  subscription_spend_share := some sub.subscription_spend_share
  net_savings_inflow := some sav.net_savings_inflow
  savings_growth_rate := some sav.savings_growth_rate
  emergency_fund_months := some sav.emergency_fund_months
  avg_utilization := some cred.avg_utilization
  max_utilization := some cred.max_utilization
  utilization_30_flag := cred.utilization_30_flag
  utilization_50_flag := cred.utilization_50_flag
  utilization_80_flag := cred.utilization_80_flag
  minimum_payment_only_flag := cred.minimum_payment_only_flag
  interest_charges_present := cred.interest_charges_present
  any_overdue := cred.any_overdue
  payroll_detected := inc.payroll_detected
  median_pay_gap_days := inc.median_pay_gap_days
  income_variability := some inc.income_variability
  cash_flow_buffer_months := some inc.cash_flow_buffer_months
  avg_monthly_income := some inc.avg_monthly_income
  investment_account_detected := invest

/-- The pure part of `compute_all_features`: the five sub-computations
plus the merge; reads only `today`, `transactions`, `accounts` and
`liabilities`, never `user_features`. -/
def computeFeatureValues (db : DB) (user_id : String) (window_days : Int) : UserFeature :=
  mergeFeatures
    (compute_subscription_signals db user_id window_days)
    (compute_savings_signals db user_id window_days)
    (compute_credit_signals db user_id window_days)
    (compute_income_signals db user_id window_days)
    (detect_investment_accounts db user_id)

/-- The `(user_id, window_days)` key match of the upsert query. -/
def featKey (user_id : String) (window_days : Int) (r : FeatureRow) : Bool :=
  r.user_id == user_id && r.window_days == window_days

/-- The upsert of `compute_all_features`: update the existing
`(user, window)` row in place (every signal column is overwritten),
else insert a new row. -/
def upsertFeatureRow (rows : List FeatureRow) (user_id : String) (window_days : Int)
    (all_features : UserFeature) : List FeatureRow :=
  match rows.find? (featKey user_id window_days) with
  | some _ =>
    updateFirst (featKey user_id window_days)
      (fun r => { r with features := all_features }) rows
  | none => rows ++ [⟨user_id, window_days, all_features⟩]

/-- Embeds `compute_all_features` (`feature_detection.py:645`): compute
all signals, then upsert the `(user, window)` row, and return the
computed values. -/
def compute_all_features (db : DB) (user_id : String) (window_days : Int) :
    UserFeature × DB :=
  let all_features := computeFeatureValues db user_id window_days
  (all_features,
   { db with user_features :=
      upsertFeatureRow db.user_features user_id window_days all_features })

/-! ## Guardrail Engine, tone validation — `services/guardrails.py` -/

/-- One entry of `validation_warnings` in `validate_tone`. -/
structure ToneWarning where
  severity : String
  type : String
  message : String
deriving DecidableEq, Repr

/-- Return value of `validate_tone`. -/
structure ToneResult where
  is_valid : Bool
  validation_warnings : List ToneWarning
deriving DecidableEq, Repr

/-- The fixed forbidden-phrase list of `validate_tone` (`guardrails.py:87`). -/
def forbidden_phrases : List String :=
  ["you\x27re overspending", "bad habit", "poor financial decision",
   "irresponsible", "wasteful spending", "you should stop", "you need to"]

/-- The fixed empowering-keyword list of `validate_tone` (`guardrails.py:108`). -/
def empowering_keywords : List String :=
  ["you can", "let\x27s", "many people", "common challenge",
   "opportunity", "consider", "explore"]

/-- The critical warning appended for one found forbidden phrase. -/
def mkForbiddenWarning (phrase : String) : ToneWarning where
  severity := "critical"
  type := "forbidden_phrase"
  message := "Contains shaming language: \x27" ++ phrase ++ "\x27"

/-- The notable warning appended when no empowering keyword occurs. -/
def lacksEmpoweringWarning : ToneWarning where
  severity := "notable"
  type := "lacks_empowering_language"
  message := "Content lacks empowering tone - no empowering keywords found"

/-- Embeds `validate_tone(content)` (`guardrails.py:27`): lowercase the
content, append one critical warning per forbidden phrase found (in list
order), then one notable warning if no empowering keyword occurs;
`is_valid` is `len(warnings) == 0`. -/
def validate_tone (content : String) : ToneResult :=
  let forbidden_found :=
    (forbidden_phrases.filter fun phrase => containsLower content phrase).map
      mkForbiddenWarning
  let has_empowering := empowering_keywords.any fun keyword => containsLower content keyword
  let warnings :=
    forbidden_found ++ (if has_empowering then [] else [lacksEmpoweringWarning])
  { is_valid := warnings.length == 0, validation_warnings := warnings }

/-- The `MANDATORY_DISCLOSURE` constant (`guardrails.py:481`). -/
def MANDATORY_DISCLOSURE : String :=
  "This is educational content, not financial advice. Consult a licensed advisor for personalized guidance."

/-- Embeds `append_disclosure` (`guardrails.py:484`). -/
def append_disclosure (content : String) : String :=
  let stripped := stripChars content.data
  if stripped.getLast? == some ('.') then
    content ++ "\n\n" ++ MANDATORY_DISCLOSURE
  else
    content ++ ".\n\n" ++ MANDATORY_DISCLOSURE

/-! ## Guardrail Engine, product eligibility — `services/guardrails.py` -/

/-- A `ProductOffer` row; the columns the matching/eligibility code reads.
`persona_targets` is stored as a JSON text column; the embedding keeps
the decoded list (the JSON-decode failure paths only skip rows). -/
structure ProductOffer where
  product_id : String
  category : String
  active : Bool := true
  min_income : Option ℚ := none
  max_credit_utilization : Option ℚ := none
  requires_no_existing_savings : Bool := false
  requires_no_existing_investment : Bool := false
  persona_targets : List String := []
deriving DecidableEq, Repr

/-- Tags abstracting the human-readable reason strings of
`check_product_eligibility` (each tag stands for the exact f-string of
the corresponding `return (False, reason)` site). -/
inductive EligReason
  | eligible
  | incomeBelowMinimum
  | utilizationTooHigh
  | alreadyHasSavings
  | alreadyHasInvestment
  | balanceTransferNotBeneficial
deriving DecidableEq, Repr

/-- Embeds `check_product_eligibility` (`guardrails.py:284`).  The
`mi ≠ 0` / `mcu ≠ 0` conjuncts are Python truthiness
(`if product.min_income and product.min_income > 0`,
`if product.max_credit_utilization and product.max_credit_utilization < 1.0`)
with `None` mapped through `getD 0`. -/
def check_product_eligibility (product : ProductOffer) (features : UserFeature)
    (accounts : List Account) : Bool × EligReason :=
  let user_monthly_income := features.avg_monthly_income.getD 0
  let user_avg_utilization := features.avg_utilization.getD 0
  let mi := product.min_income.getD 0
  let mcu := product.max_credit_utilization.getD 0
  if mi ≠ 0 ∧ mi > 0 ∧ user_monthly_income < mi then
    (false, .incomeBelowMinimum)
  else if mcu ≠ 0 ∧ mcu < 1 ∧ user_avg_utilization > mcu then
    (false, .utilizationTooHigh)
  else if product.requires_no_existing_savings ∧
      accounts.any (fun a => savings_account_types.contains a.type) then
    (false, .alreadyHasSavings)
  else if product.requires_no_existing_investment ∧
      accounts.any (fun a => a.type == "investment") then
    (false, .alreadyHasInvestment)
  else if product.category == "balance_transfer" ∧ user_avg_utilization < 0.3 then
    (false, .balanceTransferNotBeneficial)
  else
    (true, .eligible)

/-! ## Product Matching — `services/product_matcher.py` -/

/-- Embeds `has_hysa(accounts)` (`product_matcher.py:37`). -/
def has_hysa (accounts : List Account) : Bool :=
  accounts.any fun a => savings_account_types.contains a.type

/-- Embeds `has_investment_account(accounts)` (`product_matcher.py:54`). -/
def has_investment_account (accounts : List Account) : Bool :=
  accounts.any fun a => a.type == "investment"

/-- Embeds `calculate_relevance_score` (`product_matcher.py:71`); the
truthiness guards (`if features.savings_growth_rate and …`,
`… if features.cash_flow_buffer_months else 0`) appear as `≠ 0`
conjuncts. -/
def calculate_relevance_score (product : ProductOffer) (features : UserFeature)
    (accounts : List Account) : ℚ :=
  let base : ℚ := 0.5
  let score :=
    if product.category == "balance_transfer" then
      let avg_util := features.avg_utilization.getD 0
      base + (if avg_util > 0.5 then 0.3 else 0) +
        (if features.interest_charges_present then 0.2 else 0) +
        (if avg_util > 0.7 then 0.2 else 0)
    else if product.category == "hysa" then
      let net_savings := features.net_savings_inflow.getD 0
      let emergency_months := features.emergency_fund_months.getD 0
      let growth := features.savings_growth_rate.getD 0
      base + (if net_savings > 0 ∧ emergency_months < 3 then 0.4 else 0) +
        (if growth ≠ 0 ∧ growth > 0.02 then 0.2 else 0) -
        (if has_hysa accounts then 0.5 else 0)
    else if product.category == "budgeting_app" then
      let income_var := features.income_variability.getD 0
      let cbuf := features.cash_flow_buffer_months.getD 0
      let buffer_days := if cbuf ≠ 0 then cbuf * 30 else 0
      base + (if income_var > 0.3 then 0.3 else 0) +
        (if buffer_days < 30 then 0.3 else 0) +
        (if income_var > 0.25 then 0.2 else 0)
    else if product.category == "subscription_manager" then
      let recurring_count := features.recurring_merchants.getD 0
      let sub_share := features.subscription_spend_share.getD 0
      base + (if recurring_count ≥ 5 then 0.4 else 0) +
        (if sub_share > 0.2 then 0.3 else 0)
    else if product.category == "robo_advisor" then
      let monthly_income := features.avg_monthly_income.getD 0
      let avg_util := features.avg_utilization.getD 0
      let emergency_months := features.emergency_fund_months.getD 0
      base + (if monthly_income > 5000 ∧ avg_util < 0.3 then 0.4 else 0) +
        (if emergency_months ≥ 3 then 0.3 else 0) -
        (if has_investment_account accounts then 0.4 else 0)
    else base
  max 0 (min 1 score)

/-- One entry of the product-match list returned by `match_products`
(the fields the claims mention; the rationale string is generated from
`features` alone and does not affect selection or order). -/
structure ProductMatch where
  product_id : String
  category : String
  relevance_score : ℚ
deriving DecidableEq, Repr

/-- Python `persona_type.rsplit("_", 1)[0]` applied when the persona carries a
`_30d`/`_180d` window suffix (`product_matcher.py:307`). -/
def stripPersonaSuffix (persona_type : String) : String :=
  if ("_30d").data.isSuffixOf persona_type.data then
    String.mk (persona_type.data.take (persona_type.data.length - 4))
  else if ("_180d").data.isSuffixOf persona_type.data then
    String.mk (persona_type.data.take (persona_type.data.length - 5))
  else persona_type

/-- Stable descending insertion by relevance score. -/
def insertDescScore (m : ProductMatch) : List ProductMatch → List ProductMatch
  | [] => [m]
  | x :: rest =>
    if m.relevance_score ≥ x.relevance_score then m :: x :: rest
    else x :: insertDescScore m rest

/-- Embeds `matches.sort(key=lambda x: x["relevance_score"], reverse=True)`:
stable descending sort by score. -/
def sortDescByScore : List ProductMatch → List ProductMatch
  | [] => []
  | m :: rest => insertDescScore m (sortDescByScore rest)

/-- Embeds `filter_eligible_products` (`guardrails.py:363`): keep the
matches whose product (looked up again by id) passes
`check_product_eligibility`; ids that do not resolve are skipped. -/
def filter_eligible_products (catalog : List ProductOffer) (accounts : List Account)
    (features : UserFeature) (products : List ProductMatch) : List ProductMatch :=
  products.filter fun product_match =>
    match catalog.find? (fun p => p.product_id == product_match.product_id) with
    | none => false
    | some product => (check_product_eligibility product features accounts).1

/-- Embeds `match_products` (`product_matcher.py:276`): strip the window
suffix, keep active products targeting the persona, score them, keep
scores ≥ 0.5, sort descending, filter by eligibility, return the top 3. -/
def match_products (catalog : List ProductOffer) (accounts : List Account)
    (persona_type : String) (features : UserFeature) : List ProductMatch :=
  let base_persona := stripPersonaSuffix persona_type
  let active_products := catalog.filter (·.active)
  let candidate_products :=
    active_products.filter fun p => p.persona_targets.contains base_persona
  let product_matches := candidate_products.map fun p =>
    ProductMatch.mk p.product_id p.category (calculate_relevance_score p features accounts)
  let filtered_matches := product_matches.filter fun m => m.relevance_score ≥ 0.5
  let sorted_matches := sortDescByScore filtered_matches
  let eligible_matches := filter_eligible_products catalog accounts features sorted_matches
  eligible_matches.take 3

/-! ## Persona Classification Engine — `services/persona_assignment.py` -/

/-- The database context `assign_persona` consults besides the feature
row: `get_total_savings_balance` (`persona_assignment.py:28`) and
`has_overdraft_or_late_fees(db, user, 180)` (`persona_assignment.py:51`),
each a pure lookup for a fixed user. -/
structure PersonaCtx where
  features : Option UserFeature
  total_savings_balance : ℚ
  has_overdraft_or_late_fees_180d : Bool
deriving DecidableEq, Repr

/-- Embeds `check_high_utilization` (`persona_assignment.py:88`). -/
def check_high_utilization (f : UserFeature) : Bool :=
  f.max_utilization.getD 0 ≥ 0.50 || f.interest_charges_present ||
    f.minimum_payment_only_flag || f.any_overdue

/-- Embeds `check_variable_income` (`persona_assignment.py:117`):
`median_pay_gap_days is None` short-circuits to `False`. -/
def check_variable_income (f : UserFeature) : Bool :=
  match f.median_pay_gap_days with
  | none => false
  | some median_gap => median_gap > 45 && f.cash_flow_buffer_months.getD 0 < 1

/-- Embeds `check_subscription_heavy` (`persona_assignment.py:140`). -/
def check_subscription_heavy (f : UserFeature) : Bool :=
  f.recurring_merchants.getD 0 ≥ 3 &&
    (f.monthly_recurring_spend.getD 0 ≥ 50 || f.subscription_spend_share.getD 0 ≥ 0.10)

/-- Embeds `check_savings_builder` (`persona_assignment.py:164`). -/
def check_savings_builder (f : UserFeature) : Bool :=
  (f.savings_growth_rate.getD 0 ≥ 0.02 || f.net_savings_inflow.getD 0 ≥ 200) &&
    f.avg_utilization.getD 0 < 0.30

/-- Embeds `check_wealth_builder` (`persona_assignment.py:188`) with its
two database lookups supplied by the context. -/
def check_wealth_builder (ctx : PersonaCtx) (f : UserFeature) : Bool :=
  if f.avg_monthly_income.getD 0 ≤ 10000 then false
  else if ctx.total_savings_balance ≤ 25000 then false
  else if f.max_utilization.getD 0 > 0.20 then false
  else if ctx.has_overdraft_or_late_fees_180d then false
  else if ¬ f.investment_account_detected then false
  else true

/-- One entry of the `matched_personas` list of `assign_persona` (the
`criteria`/`feature_values` reasoning strings are dropped; they do not
influence the selection). -/
structure MatchedPersona where
  type : String
  priority : ℚ
deriving DecidableEq, Repr

/-- The `matched_personas` list built by `assign_persona`
(`persona_assignment.py:274`), in evaluation order. -/
def matchedPersonas (ctx : PersonaCtx) (f : UserFeature) : List MatchedPersona :=
  (if check_wealth_builder ctx f then [⟨"wealth_builder", 1⟩] else []) ++
  (if check_high_utilization f then
    [⟨"high_utilization", if f.max_utilization.getD 0 ≥ 0.80 then 0.95 else 0.8⟩]
   else []) ++
  (if check_savings_builder f then [⟨"savings_builder", 0.7⟩] else []) ++
  (if check_variable_income f then [⟨"variable_income", 0.6⟩] else []) ++
  (if check_subscription_heavy f then [⟨"subscription_heavy", 0.5⟩] else [])

/-- Head of the stable priority-descending sort: the first list element
of maximal priority (`matched_personas.sort(key=priority, reverse=True)`
followed by `[0]`; Python's sort is stable). -/
def pickTop (m : MatchedPersona) : List MatchedPersona → MatchedPersona
  | [] => m
  | x :: rest => if x.priority > m.priority then pickTop x rest else pickTop m rest

/-- Result of `assign_persona`: type, confidence, and the matched list
standing in for the reasoning trace. -/
structure PersonaResult where
  persona_type : String
  confidence : ℚ
  all_matched : List MatchedPersona
deriving DecidableEq, Repr

/-- Embeds `assign_persona` (`persona_assignment.py:234`): no feature row
falls back to `savings_builder`/0.1; no match falls back to
`savings_builder`/0.2; otherwise the highest-priority match (first in
evaluation order on ties) with its priority as confidence. -/
def assign_persona (ctx : PersonaCtx) : PersonaResult :=
  match ctx.features with
  | none => ⟨"savings_builder", 0.1, []⟩
  | some f =>
    match matchedPersonas ctx f with
    | [] => ⟨"savings_builder", 0.2, []⟩
    | m :: rest =>
      let top := pickTop m rest
      ⟨top.type, top.priority, m :: rest⟩

/-- A stored `Persona` row (`models.py`), unique on `(user, window)`. -/
structure PersonaRow where
  user_id : String
  window_days : Int
  persona_type : String
  confidence_score : ℚ
deriving DecidableEq, Repr

/-- Embeds `create_or_update_persona` (`persona_assignment.py:407`):
update the existing `(user, window)` row in place, else insert. -/
def create_or_update_persona (store : List PersonaRow) (user_id : String)
    (window_days : Int) (persona_type : String) (confidence : ℚ) : List PersonaRow :=
  let key := fun (r : PersonaRow) => r.user_id == user_id && r.window_days == window_days
  match store.find? key with
  | some _ =>
    updateFirst key
      (fun r => { r with persona_type := persona_type, confidence_score := confidence })
      store
  | none => store ++ [⟨user_id, window_days, persona_type, confidence⟩]

/-- Embeds `assign_and_save_persona` (`persona_assignment.py:467`). -/
def assign_and_save_persona (ctx : PersonaCtx) (store : List PersonaRow)
    (user_id : String) (window_days : Int) : PersonaResult × List PersonaRow :=
  let result := assign_persona ctx
  (result,
   create_or_update_persona store user_id window_days result.persona_type result.confidence)

/-! ## Recommendation approval state machine — `routers/recommendations.py` -/

/-- The recommendation lifecycle states (CHECK constraint on
`recommendations.status`). -/
inductive RecStatus
  | pending_approval
  | approved
  | overridden
  | rejected
deriving DecidableEq, Repr

/-- Status string used inside bulk-approve error messages. -/
def RecStatus.asString : RecStatus → String
  | .pending_approval => "pending_approval"
  | .approved => "approved"
  | .overridden => "overridden"
  | .rejected => "rejected"

/-- A `Recommendation` row; the columns the operator endpoints touch.
`original_content` abstracts the JSON blob to its
`(original_title, original_content)` payload, and `rejection_reason`
abstracts the `metadata_json["rejection_reason"]` entry. -/
structure Rec where
  recommendation_id : String
  user_id : String
  persona_type : String
  window_days : Int
  title : String
  content : String
  rationale : String
  status : RecStatus
  approved_by : Option String := none
  override_reason : Option String := none
  original_content : Option (String × String) := none
  rejection_reason : Option String := none
  rejected_by : Option String := none
deriving DecidableEq, Repr

/-- The recommendation constructed by the generation endpoint
(`recommendations.py:269`): disclosure appended, status
`pending_approval`. -/
def mkRecommendation (recommendation_id user_id persona_type : String)
    (window_days : Int) (title content rationale : String) : Rec where
  recommendation_id := recommendation_id
  user_id := user_id
  persona_type := persona_type
  window_days := window_days
  title := title
  content := append_disclosure content
  rationale := rationale
  status := .pending_approval

/-- The error outcomes of the operator endpoints (each constructor is
one `raise HTTPException` site; the spec's taxonomy calls the
terminal-state 400s `ConflictError`). -/
inductive ApiErr
  | notFound
  | alreadyApproved
  | approveRejected
  | rejectApproved
  | missingOverrideFields
  | toneValidationFailed
  | allFailed
deriving DecidableEq, Repr

/-- The errors the spec's taxonomy classifies as `ConflictError`
(a terminal state incompatible with the requested transition). -/
def ApiErr.isConflict : ApiErr → Bool
  | .alreadyApproved | .approveRejected | .rejectApproved => true
  | _ => false

/-- The `.first()` lookup by primary key. -/
def findRec (store : List Rec) (recommendation_id : String) : Option Rec :=
  store.find? fun r => r.recommendation_id == recommendation_id

/-- Commit of a mutated row: replace the row with the given id. -/
def updateRec (store : List Rec) (recommendation_id : String) (r' : Rec) : List Rec :=
  updateFirst (fun r => r.recommendation_id == recommendation_id) (fun _ => r') store

/-- Embeds `approve_recommendation` (`recommendations.py:475`): 404 if
missing, 400 if already `approved`, 400 if `rejected`, else set
`approved` with operator attribution. -/
def approve_recommendation (store : List Rec) (recommendation_id operator_id : String) :
    Except ApiErr (List Rec) :=
  match findRec store recommendation_id with
  | none => .error .notFound
  | some r =>
    if r.status = .approved then .error .alreadyApproved
    else if r.status = .rejected then .error .approveRejected
    else
      .ok (updateRec store recommendation_id
        { r with status := .approved, approved_by := some operator_id })

/-- The override request body (`RecommendationOverride`). -/
structure OverrideRequest where
  operator_id : String
  new_title : Option String := none
  new_content : Option String := none
  reason : String
deriving DecidableEq, Repr

/-- Embeds `override_recommendation` (`recommendations.py:628`): 404 if
missing; 400 if neither new title nor new content (Python truthiness);
new content with a critical tone warning is 400; otherwise the row gets
the original content snapshot, status `overridden`, the new fields, and
a disclosure on the final content.  Note: there is no status
precondition. -/
def override_recommendation (store : List Rec) (recommendation_id : String)
    (request : OverrideRequest) : Except ApiErr (List Rec) :=
  match findRec store recommendation_id with
  | none => .error .notFound
  | some r =>
    if ¬ optStrTruthy request.new_title ∧ ¬ optStrTruthy request.new_content then
      .error .missingOverrideFields
    else
      let r₁ := { r with
        original_content := some (r.title, r.content),
        status := RecStatus.overridden,
        override_reason := some request.reason }
      let r₂ :=
        if optStrTruthy request.new_title
        then { r₁ with title := request.new_title.getD r.title }
        else r₁
      if optStrTruthy request.new_content then
        let new_content := request.new_content.getD ""
        let tone_result := validate_tone new_content
        let critical_warnings :=
          tone_result.validation_warnings.filter fun w => w.severity == "critical"
        if tone_result.is_valid = false ∧ critical_warnings ≠ [] then
          .error .toneValidationFailed
        else
          .ok (updateRec store recommendation_id
            { r₂ with content := append_disclosure new_content })
      else
        let r₃ :=
          if strContains r₂.content MANDATORY_DISCLOSURE then r₂
          else { r₂ with content := append_disclosure r₂.content }
        .ok (updateRec store recommendation_id r₃)

/-- Embeds `reject_recommendation` (`recommendations.py:822`): 404 if
missing, 400 if `approved`, else set `rejected` and record the reason. -/
def reject_recommendation (store : List Rec) (recommendation_id operator_id reason : String) :
    Except ApiErr (List Rec) :=
  match findRec store recommendation_id with
  | none => .error .notFound
  | some r =>
    if r.status = .approved then .error .rejectApproved
    else
      .ok (updateRec store recommendation_id
        { r with status := .rejected, rejection_reason := some reason,
                 rejected_by := some operator_id })

/-- Bulk-approve summary (`BulkApproveResponse`). -/
structure BulkResp where
  approved : Nat
  failed : Nat
  errors : List String
deriving DecidableEq, Repr

/-- Error string for a missing id in bulk approve. -/
def bulkErrNotFound (recommendation_id : String) : String :=
  "Recommendation \x27" ++ recommendation_id ++ "\x27 not found"

/-- Error string for a non-pending id in bulk approve. -/
def bulkErrNotPending (recommendation_id : String) (status : RecStatus) : String :=
  "Recommendation \x27" ++ recommendation_id ++
    "\x27 is not in \x27pending_approval\x27 status (current status: \x27" ++
    status.asString ++ "\x27)"

/-- One loop iteration of `bulk_approve_recommendations`
(`recommendations.py:1021`), threading the session state (mutations are
visible to later lookups) and the counters. -/
def bulkStep (operator_id : String) (acc : List Rec × Nat × Nat × List String)
    (recommendation_id : String) : List Rec × Nat × Nat × List String :=
  let (store, approved, failed, errors) := acc
  match findRec store recommendation_id with
  | none => (store, approved, failed + 1, errors ++ [bulkErrNotFound recommendation_id])
  | some r =>
    if r.status ≠ .pending_approval then
      (store, approved, failed + 1, errors ++ [bulkErrNotPending recommendation_id r.status])
    else
      (updateRec store recommendation_id
        { r with status := .approved, approved_by := some operator_id },
       approved + 1, failed, errors)

/-- Embeds `bulk_approve_recommendations` (`recommendations.py:971`):
process each id independently, recording per-id failures; commit the
successful subset in one transaction; 400 if nothing succeeded. -/
def bulk_approve_recommendations (store : List Rec) (recommendation_ids : List String)
    (operator_id : String) : Except ApiErr (BulkResp × List Rec) :=
  let st := recommendation_ids.foldl (bulkStep operator_id) (store, 0, 0, [])
  if st.2.1 = 0 then .error .allFailed
  else .ok (⟨st.2.1, st.2.2.1, st.2.2.2⟩, st.1)

deriving instance DecidableEq for Except

/-! ## Concrete sample rows used by witnesses and counterexamples -/

/-- A feature snapshot matching both the `high_utilization` criteria
(`max_utilization = 0.85`) and the `variable_income` criteria. -/
def sampleHighUtilFeatures : UserFeature where
  max_utilization := some 0.85
  median_pay_gap_days := some 60
  cash_flow_buffer_months := some 0.5

/-- A persona context holding `sampleHighUtilFeatures`. -/
def samplePersonaCtx : PersonaCtx where
  features := some sampleHighUtilFeatures
  total_savings_balance := 0
  has_overdraft_or_late_fees_180d := false

/-- A product whose utilization threshold is set to 1.0 — Python's
`product.max_credit_utilization < 1.0` guard disables the rule. -/
def sampleThresholdOneProduct : ProductOffer where
  product_id := "cap1"
  category := "other"
  active := true
  max_credit_utilization := some 1

/-- A feature snapshot with over-limit average utilization (3/2). -/
def sampleOverLimitFeatures : UserFeature where
  avg_utilization := some (3 / 2)

/-- A balance-transfer product targeting the high-utilization persona. -/
def sampleBtProduct : ProductOffer where
  product_id := "bt1"
  category := "balance_transfer"
  active := true
  persona_targets := ["high_utilization"]

/-- A feature snapshot with average utilization 0.8 (scores 1.0 for a
balance-transfer product and passes its eligibility rule). -/
def sampleBtFeatures : UserFeature where
  avg_utilization := some 0.8

/-- A pending recommendation with id `"a"`. -/
def samplePendingA : Rec where
  recommendation_id := "a"
  user_id := "u1"
  persona_type := "high_utilization"
  window_days := 30
  title := "Title A"
  content := "Content A."
  rationale := "Rationale A"
  status := .pending_approval

/-- A pending recommendation with id `"b"`. -/
def samplePendingB : Rec where
  recommendation_id := "b"
  user_id := "u1"
  persona_type := "high_utilization"
  window_days := 30
  title := "Title B"
  content := "Content B."
  rationale := "Rationale B"
  status := .pending_approval

/-- An approved recommendation with id `"d"`. -/
def sampleApprovedD : Rec where
  recommendation_id := "d"
  user_id := "u2"
  persona_type := "savings_builder"
  window_days := 30
  title := "Title D"
  content := "Content D."
  rationale := "Rationale D"
  status := .approved
  approved_by := some ("op0")

/-! ## Specification-shaped predicates (for refinement claims) -/

/-- Statement that `t` is the first element of maximal priority in `l` — the head of
Python's stable `sort(key=priority, reverse=True)`. -/
def IsFirstMax (t : MatchedPersona) (l : List MatchedPersona) : Prop :=
  t ∈ l ∧ (∀ x ∈ l, x.priority ≤ t.priority) ∧
    ∃ l₁ l₂, l = l₁ ++ t :: l₂ ∧ ∀ x ∈ l₁, x.priority < t.priority

/-- The recurring-pattern rule as the specification words it: some
interval in {7, 30, 90} has at least 60% of the consecutive-date gaps
within ±5 days of it. -/
def recurringRuleSpec (dates : List Int) : Prop :=
  ∃ interval ∈ ([7, 30, 90] : List Int),
    ((gapsOf dates).filter fun g => |g - interval| ≤ 5).length * 5 ≥
      (gapsOf dates).length * 3

/-- The eligibility-failure disjunction exactly as claim C8 words it:
income below `min_income`, utilization above the product threshold,
a required-absent savings (resp. investment) account held, or a
balance-transfer product at utilization below 0.30. -/
def eligFailsSpecClaim (product : ProductOffer) (features : UserFeature)
    (accounts : List Account) : Prop :=
  (∃ m, product.min_income = some m ∧ features.avg_monthly_income.getD 0 < m) ∨
  (∃ t, product.max_credit_utilization = some t ∧ features.avg_utilization.getD 0 > t) ∨
  (product.requires_no_existing_savings = true ∧
    ∃ a ∈ accounts, a.type ∈ savings_account_types) ∨
  (product.requires_no_existing_investment = true ∧ ∃ a ∈ accounts, a.type = "investment") ∨
  (product.category = "balance_transfer" ∧ features.avg_utilization.getD 0 < 0.3)

/-- The eligibility-failure disjunction amended with the truthiness
guards the code actually applies: the income rule needs a positive
`min_income`, the utilization rule needs a nonzero threshold strictly
below 1.0. -/
def eligFailsAmended (product : ProductOffer) (features : UserFeature)
    (accounts : List Account) : Prop :=
  (∃ m, product.min_income = some m ∧ 0 < m ∧ features.avg_monthly_income.getD 0 < m) ∨
  (∃ t, product.max_credit_utilization = some t ∧ t ≠ 0 ∧ t < 1 ∧
    features.avg_utilization.getD 0 > t) ∨
  (product.requires_no_existing_savings = true ∧
    ∃ a ∈ accounts, a.type ∈ savings_account_types) ∨
  (product.requires_no_existing_investment = true ∧ ∃ a ∈ accounts, a.type = "investment") ∨
  (product.category = "balance_transfer" ∧ features.avg_utilization.getD 0 < 0.3)

/-! ## Helper lemmas -/

/-- The float comparison `len(matching) >= len(gaps) * 0.6` agrees with
the exact integer comparison `matching * 5 ≥ len * 3`. -/
lemma ratThreshold (m n : ℕ) : ((m : ℚ) ≥ (n : ℚ) * 0.6) ↔ m * 5 ≥ n * 3 := by
  rw [show (0.6 : ℚ) = 3 / 5 from by norm_num]
  constructor
  · intro h
    have h2 : ((n * 3 : ℕ) : ℚ) ≤ ((m * 5 : ℕ) : ℚ) := by push_cast; nlinarith
    exact_mod_cast h2
  · intro h
    have h2 : ((n * 3 : ℕ) : ℚ) ≤ ((m * 5 : ℕ) : ℚ) := by exact_mod_cast h
    push_cast at h2
    rw [ge_iff_le]
    nlinarith

/-- On lists of at least three dates, `is_recurring_pattern` is exactly
the 60%-within-tolerance rule. -/
lemma recurring_any_iff (dates : List Int) (h : 3 ≤ dates.length) :
    is_recurring_pattern dates 5 = true ↔ recurringRuleSpec dates := by
  have hfil : ∀ interval : Int,
      ((gapsOf dates).filter fun g => (g - interval).natAbs ≤ (5 : Int).natAbs) =
      ((gapsOf dates).filter fun g => |g - interval| ≤ 5) := by
    intro interval
    apply List.filter_congr
    intro g _
    simp only [abs_le, decide_eq_decide]
    omega
  unfold is_recurring_pattern recurringRuleSpec
  rw [if_neg (by omega), List.any_eq_true]
  constructor
  · rintro ⟨interval, hmem, hge⟩
    rw [decide_eq_true_eq, hfil interval] at hge
    exact ⟨interval, hmem, (ratThreshold _ _).mp hge⟩
  · rintro ⟨interval, hmem, hge⟩
    refine ⟨interval, hmem, ?_⟩
    rw [decide_eq_true_eq, hfil interval]
    exact (ratThreshold _ _).mpr hge

/-- A found recommendation carries the looked-up id. -/
lemma findRec_some_id {store : List Rec} {rid : String} {r : Rec}
    (h : findRec store rid = some r) : r.recommendation_id = rid := by
  have := List.find?_some h
  simpa using this

/-- Evaluation of `findRec` on a cons whose head has the looked-up id. -/
lemma findRec_cons_pos {a : Rec} {rest : List Rec} {rid : String}
    (h : a.recommendation_id = rid) : findRec (a :: rest) rid = some a := by
  simp [findRec, List.find?_cons, h]

/-- Evaluation of `findRec` on a cons whose head has a different id. -/
lemma findRec_cons_neg {a : Rec} {rest : List Rec} {rid : String}
    (h : ¬ a.recommendation_id = rid) : findRec (a :: rest) rid = findRec rest rid := by
  simp [findRec, List.find?_cons, h]

/-- Evaluation of `updateRec` on a cons whose head has the updated id. -/
lemma updateRec_cons_pos {a : Rec} {rest : List Rec} {rid : String} {v : Rec}
    (h : a.recommendation_id = rid) : updateRec (a :: rest) rid v = v :: rest := by
  simp [updateRec, updateFirst, h]

/-- Evaluation of `updateRec` on a cons whose head has a different id. -/
lemma updateRec_cons_neg {a : Rec} {rest : List Rec} {rid : String} {v : Rec}
    (h : ¬ a.recommendation_id = rid) :
    updateRec (a :: rest) rid v = a :: updateRec rest rid v := by
  simp [updateRec, updateFirst, h]

/-- Updating the row with id `rid` makes it the row found at `rid`. -/
lemma findRec_updateRec_self {store : List Rec} {rid : String} {v : Rec}
    (hv : v.recommendation_id = rid) (h : (findRec store rid).isSome) :
    findRec (updateRec store rid v) rid = some v := by
  induction store with
  | nil => simp [findRec] at h
  | cons a rest ih =>
    by_cases ha : a.recommendation_id = rid
    · rw [updateRec_cons_pos ha, findRec_cons_pos hv]
    · rw [findRec_cons_neg ha] at h
      rw [updateRec_cons_neg ha, findRec_cons_neg ha]
      exact ih h

/-- Updating the row with id `rid` does not affect lookups at other ids. -/
lemma findRec_updateRec_other {store : List Rec} {rid x : String} {v : Rec}
    (hv : v.recommendation_id = rid) (hx : x ≠ rid) :
    findRec (updateRec store rid v) x = findRec store x := by
  induction store with
  | nil => simp [findRec, updateRec, updateFirst]
  | cons a rest ih =>
    by_cases ha : a.recommendation_id = rid
    · have hax : ¬ a.recommendation_id = x := by rw [ha]; exact fun h => hx h.symm
      have hvx : ¬ v.recommendation_id = x := by rw [hv]; exact fun h => hx h.symm
      rw [updateRec_cons_pos ha, findRec_cons_neg hvx, findRec_cons_neg hax]
    · by_cases hax : a.recommendation_id = x
      · rw [updateRec_cons_neg ha, findRec_cons_pos hax, findRec_cons_pos hax]
      · rw [updateRec_cons_neg ha, findRec_cons_neg hax, findRec_cons_neg hax]
        exact ih

/-- Loop invariant of bulk approval: each processed id increments
exactly one of the two counters, and each failure appends exactly one
error string. -/
lemma bulk_counts (operator_id : String) (ids : List String) :
    ∀ (store : List Rec) (a f : Nat) (e : List String),
      (ids.foldl (bulkStep operator_id) (store, a, f, e)).2.1 +
        (ids.foldl (bulkStep operator_id) (store, a, f, e)).2.2.1 = a + f + ids.length ∧
      (ids.foldl (bulkStep operator_id) (store, a, f, e)).2.2.2.length + f =
        e.length + (ids.foldl (bulkStep operator_id) (store, a, f, e)).2.2.1 := by
  induction ids with
  | nil => intro store a f e; simp
  | cons id ids ih =>
    intro store a f e
    rw [List.foldl_cons]
    cases hfind : findRec store id with
    | none =>
      rw [show bulkStep operator_id (store, a, f, e) id =
          (store, a, f + 1, e ++ [bulkErrNotFound id]) from by simp [bulkStep, hfind]]
      have := ih store a (f + 1) (e ++ [bulkErrNotFound id])
      simp only [List.length_append, List.length_cons, List.length_nil] at this ⊢
      omega
    | some r =>
      by_cases hst : r.status = RecStatus.pending_approval
      · rw [show bulkStep operator_id (store, a, f, e) id =
            (updateRec store id
              { r with status := .approved, approved_by := some operator_id },
             a + 1, f, e) from by simp [bulkStep, hfind, hst]]
        have := ih (updateRec store id
          { r with status := .approved, approved_by := some operator_id }) (a + 1) f e
        simp only [List.length_cons] at this ⊢
        omega
      · rw [show bulkStep operator_id (store, a, f, e) id =
            (store, a, f + 1, e ++ [bulkErrNotPending id r.status]) from by
          simp [bulkStep, hfind, hst]]
        have := ih store a (f + 1) (e ++ [bulkErrNotPending id r.status])
        simp only [List.length_append, List.length_cons, List.length_nil] at this ⊢
        omega

/-! ## Claim C2 — recurring-pattern detection -/

/-- C2 (counterexample): the claim asserts that a merchant with date
gaps `[5, 60, 3]` is **not** recurring, but the code detects a weekly
pattern there: gaps 5 and 3 both lie within ±5 of interval 7, so 2 of 3
gaps (≈67% ≥ 60%) match and `is_recurring_pattern` returns `True`. -/
theorem claim_C2_counterexample :
    is_recurring_pattern [0, 5, 65, 68] 5 = true := by
  norm_num [is_recurring_pattern, gapsOf]

/-- C2 (amended): over a chronologically sorted list of at least 3
transaction dates, `is_recurring_pattern` returns true iff for some
interval in {7, 30, 90} at least 60% of the consecutive-date gaps lie
within ±5 days of that interval; a merchant with date gaps `[29,31,30]`
is recurring (monthly), and a merchant with date gaps `[5,60,3]` is
**also** recurring (weekly: two of its three gaps lie within ±5 of 7). -/
theorem claim_C2_recurring_detection :
    (∀ dates : List Int, 3 ≤ dates.length →
        (is_recurring_pattern dates 5 = true ↔ recurringRuleSpec dates)) ∧
    is_recurring_pattern [0, 29, 60, 90] 5 = true ∧
    is_recurring_pattern [0, 5, 65, 68] 5 = true := by
  refine ⟨recurring_any_iff, ?_, ?_⟩ <;> norm_num [is_recurring_pattern, gapsOf]

/-- C2 (witness): the amended equivalence applied at the concrete
monthly example `[0, 29, 60, 90]`. -/
theorem claim_C2_witness : recurringRuleSpec [0, 29, 60, 90] :=
  (claim_C2_recurring_detection.1 [0, 29, 60, 90] (by decide)).mp
    (by norm_num [is_recurring_pattern, gapsOf])

/-! ## Claim C7 — tone validation -/

/-- C7: `validate_tone` returns `is_valid` true iff its warning list is
empty; each forbidden phrase occurring in the lowercased text
contributes a critical `forbidden_phrase` warning; absence of every
empowering keyword contributes the notable `lacks_empowering_language`
warning; `validate_tone("You're overspending on dining.")` is invalid
with a critical forbidden-phrase warning, and
`validate_tone("You can build savings by automating transfers.")` is
valid with zero warnings. -/
theorem claim_C7_validate_tone :
    (∀ content : String,
        (validate_tone content).is_valid = true ↔
          (validate_tone content).validation_warnings = []) ∧
    (∀ content phrase, phrase ∈ forbidden_phrases → containsLower content phrase = true →
        mkForbiddenWarning phrase ∈ (validate_tone content).validation_warnings ∧
        (mkForbiddenWarning phrase).severity = "critical" ∧
        (mkForbiddenWarning phrase).type = "forbidden_phrase") ∧
    (∀ content, (∀ keyword ∈ empowering_keywords, containsLower content keyword = false) →
        lacksEmpoweringWarning ∈ (validate_tone content).validation_warnings ∧
        lacksEmpoweringWarning.severity = "notable" ∧
        lacksEmpoweringWarning.type = "lacks_empowering_language") ∧
    (validate_tone ("You\x27re overspending on dining.")).is_valid = false ∧
    (∃ w ∈ (validate_tone ("You\x27re overspending on dining.")).validation_warnings,
        w.severity = "critical" ∧ w.type = "forbidden_phrase") ∧
    (validate_tone ("You can build savings by automating transfers.")).is_valid = true ∧
    (validate_tone ("You can build savings by automating transfers.")).validation_warnings
      = [] := by
  refine ⟨?_, ?_, ?_, by decide, by decide, by decide, by decide⟩
  · intro content
    simp [validate_tone]
  · intro content phrase hmem hocc
    refine ⟨?_, rfl, rfl⟩
    simp only [validate_tone, List.mem_append]
    exact Or.inl (List.mem_map_of_mem _ (List.mem_filter.mpr ⟨hmem, by simp [hocc]⟩))
  · intro content hall
    refine ⟨?_, rfl, rfl⟩
    have hany : (empowering_keywords.any fun keyword => containsLower content keyword)
        = false := by
      rw [List.any_eq_false]
      intro k hk
      simp [hall k hk]
    simp [validate_tone, hany]

/-- C7 (witness): the forbidden-phrase conjunct applied at the concrete
content `"A bad habit."` and phrase `"bad habit"`. -/
theorem claim_C7_witness :
    mkForbiddenWarning ("bad habit") ∈
      (validate_tone ("A bad habit.")).validation_warnings ∧
    (mkForbiddenWarning ("bad habit")).severity = "critical" ∧
    (mkForbiddenWarning ("bad habit")).type = "forbidden_phrase" :=
  claim_C7_validate_tone.2.1 ("A bad habit.") ("bad habit") (by decide) (by decide)

/-! ## Claim C5 — approve/reject conflicts on terminal states -/

/-- C5: approving a recommendation already in `approved` status fails
with the already-approved conflict, and rejecting an `approved`
recommendation fails with the reject-approved conflict; both errors are
conflicts in the spec's taxonomy, and since the endpoints raise before
any commit, the store is left unchanged (an `.error` result carries no
new store). -/
theorem claim_C5_conflict_on_approved (store : List Rec)
    (rid operator_id reason : String) (r : Rec)
    (hfind : findRec store rid = some r) (happ : r.status = .approved) :
    approve_recommendation store rid operator_id = .error .alreadyApproved ∧
    reject_recommendation store rid operator_id reason = .error .rejectApproved ∧
    ApiErr.alreadyApproved.isConflict = true ∧
    ApiErr.rejectApproved.isConflict = true := by
  refine ⟨?_, ?_, rfl, rfl⟩ <;>
    simp [approve_recommendation, reject_recommendation, hfind, happ]

/-- C5 (witness): the conflict theorem applied to a concrete singleton
store holding one approved recommendation. -/
theorem claim_C5_witness :
    approve_recommendation
        [{ recommendation_id := "r1", user_id := "u1", persona_type := "high_utilization",
           window_days := 30, title := "T", content := "C", rationale := "R",
           status := .approved }] ("r1") ("op1") = .error .alreadyApproved ∧
    reject_recommendation
        [{ recommendation_id := "r1", user_id := "u1", persona_type := "high_utilization",
           window_days := 30, title := "T", content := "C", rationale := "R",
           status := .approved }] ("r1") ("op1") ("too spicy") = .error .rejectApproved ∧
    ApiErr.alreadyApproved.isConflict = true ∧
    ApiErr.rejectApproved.isConflict = true :=
  claim_C5_conflict_on_approved _ "r1" "op1" "too spicy"
    { recommendation_id := "r1", user_id := "u1", persona_type := "high_utilization",
      window_days := 30, title := "T", content := "C", rationale := "R",
      status := .approved }
    (by decide) rfl

/-! ## Claim C1 — approval state machine -/

/-- C1 (counterexample): the claim requires the override operation on an
`approved` recommendation to fail, but `override_recommendation`
performs no status check: overriding an approved recommendation
succeeds and moves it to `overridden`. -/
theorem claim_C1_counterexample :
    override_recommendation [sampleApprovedD] ("d")
        { operator_id := "op1", new_title := some ("Title D2"), reason := "reword" } =
      .ok [{ sampleApprovedD with
              title := "Title D2",
              status := .overridden,
              override_reason := some ("reword"),
              original_content :=
                some ("Title D", "Content D."),
              content := "Content D." ++ "\n\n" ++ MANDATORY_DISCLOSURE }] := by
  decide

/-- C1 (amended): every generated recommendation starts in
`pending_approval`; an `approved` recommendation may not transition to
`rejected` (reject fails) nor be approved again, and a `rejected`
recommendation may not transition to `approved` (approve fails); the
override operation, however, checks no status precondition, so an
`approved` recommendation transitions to `overridden` whenever the
override request is otherwise valid. -/
theorem claim_C1_state_machine :
    (∀ (rid uid ptype : String) (w : Int) (t c ra : String),
        (mkRecommendation rid uid ptype w t c ra).status = .pending_approval) ∧
    (∀ (store : List Rec) (rid op : String) (r : Rec),
        findRec store rid = some r → r.status = .approved →
        approve_recommendation store rid op = .error .alreadyApproved) ∧
    (∀ (store : List Rec) (rid op reason : String) (r : Rec),
        findRec store rid = some r → r.status = .approved →
        reject_recommendation store rid op reason = .error .rejectApproved) ∧
    (∀ (store : List Rec) (rid op : String) (r : Rec),
        findRec store rid = some r → r.status = .rejected →
        approve_recommendation store rid op = .error .approveRejected) ∧
    (∀ (store : List Rec) (rid : String) (req : OverrideRequest) (r : Rec),
        findRec store rid = some r → r.status = .approved →
        optStrTruthy req.new_title = true → req.new_content = none →
        ∃ store', override_recommendation store rid req = .ok store' ∧
          (findRec store' rid).map Rec.status = some .overridden) := by
  refine ⟨fun _ _ _ _ _ _ _ => rfl, ?_, ?_, ?_, ?_⟩
  · intro store rid op r hfind happ
    simp [approve_recommendation, hfind, happ]
  · intro store rid op reason r hfind happ
    simp [reject_recommendation, hfind, happ]
  · intro store rid op r hfind hrej
    simp [approve_recommendation, hfind, hrej]
  · intro store rid req r hfind _ htitle hcontent
    have hid : r.recommendation_id = rid := findRec_some_id hfind
    have key : ∀ v : Rec, v.recommendation_id = rid → v.status = .overridden →
        (findRec (updateRec store rid v) rid).map Rec.status =
          some RecStatus.overridden := by
      intro v hv hs
      rw [findRec_updateRec_self hv (by rw [hfind]; rfl)]
      simp [hs]
    have h0 : optStrTruthy none = false := rfl
    simp only [override_recommendation, hfind, hcontent, htitle, h0, not_true,
      Bool.false_eq_true, not_false_iff, false_and, and_true, if_false, if_true,
      ite_true, ite_false, reduceIte]
    refine ⟨_, rfl, ?_⟩
    split
    · exact key _ hid rfl
    · exact key _ hid rfl

/-- C1 (witness): the non-conflict clauses and the override-on-approved
clause applied to a concrete singleton store. -/
theorem claim_C1_witness :
    ∃ store',
      override_recommendation [sampleApprovedD] ("d")
          { operator_id := "op1", new_title := some ("Title D3"), reason := "why" } =
        .ok store' ∧
      (findRec store' "d").map Rec.status = some .overridden :=
  claim_C1_state_machine.2.2.2.2 [sampleApprovedD] "d"
    { operator_id := "op1", new_title := some ("Title D3"), reason := "why" }
    sampleApprovedD (by decide) rfl (by decide) rfl

/-! ## Claim C4 — bulk approval -/

/-- C4: bulk approval processes each id independently — every id
increments exactly one of the two counters and each failure appends one
error string (`approved + failed = #ids`, `#errors = failed`); in the
claim's example shape (two distinct pending ids, one unknown id, one
already-approved id) the result is `approved = 2`, `failed = 2`, the two
error strings, and the final store has both valid recommendations
approved — the commit covers exactly the successful subset. -/
theorem claim_C4_bulk_approve :
    (∀ (store : List Rec) (ids : List String) (op : String) (resp : BulkResp)
        (store' : List Rec),
        bulk_approve_recommendations store ids op = .ok (resp, store') →
        resp.approved + resp.failed = ids.length ∧ resp.errors.length = resp.failed) ∧
    (∀ (store : List Rec) (i1 i2 i3 i4 op : String) (r1 r2 r4 : Rec),
        findRec store i1 = some r1 → r1.status = .pending_approval →
        findRec store i2 = some r2 → r2.status = .pending_approval →
        i1 ≠ i2 →
        findRec store i3 = none →
        findRec store i4 = some r4 → r4.status = .approved →
        ∃ store',
          bulk_approve_recommendations store [i1, i2, i3, i4] op =
            .ok (⟨2, 2, [bulkErrNotFound i3, bulkErrNotPending i4 .approved]⟩, store') ∧
          (findRec store' i1).map Rec.status = some .approved ∧
          (findRec store' i2).map Rec.status = some .approved) := by
  constructor
  · intro store ids op resp store' hok
    unfold bulk_approve_recommendations at hok
    by_cases hz : (ids.foldl (bulkStep op) (store, 0, 0, [])).2.1 = 0
    · rw [if_pos hz] at hok
      exact absurd hok (by simp)
    · rw [if_neg hz] at hok
      injection hok with h
      injection h with hresp hstore
      have hc := bulk_counts op ids store 0 0 []
      rw [← hresp]
      simp only [List.length_nil, Nat.add_zero, Nat.zero_add] at hc
      dsimp only
      exact ⟨by omega, by omega⟩
  · intro store i1 i2 i3 i4 op r1 r2 r4 h1 h1s h2 h2s h12 h3 h4 h4s
    have hid1 : r1.recommendation_id = i1 := findRec_some_id h1
    have hid2 : r2.recommendation_id = i2 := findRec_some_id h2
    have h21 : i2 ≠ i1 := Ne.symm h12
    have h31 : i3 ≠ i1 := by
      intro heq
      rw [heq, h1] at h3
      exact Option.noConfusion h3
    have h32 : i3 ≠ i2 := by
      intro heq
      rw [heq, h2] at h3
      exact Option.noConfusion h3
    have h41 : i4 ≠ i1 := by
      intro heq
      rw [heq, h1] at h4
      injection h4 with hr
      rw [← hr, h1s] at h4s
      exact RecStatus.noConfusion h4s
    have h42 : i4 ≠ i2 := by
      intro heq
      rw [heq, h2] at h4
      injection h4 with hr
      rw [← hr, h2s] at h4s
      exact RecStatus.noConfusion h4s
    have hv1 : ({ r1 with status := .approved, approved_by := some op } :
        Rec).recommendation_id = i1 := hid1
    have hv2 : ({ r2 with status := .approved, approved_by := some op } :
        Rec).recommendation_id = i2 := hid2
    have hstep1 : bulkStep op (store, 0, 0, []) i1 =
        (updateRec store i1 { r1 with status := .approved, approved_by := some op },
         1, 0, []) := by
      simp [bulkStep, h1, h1s]
    have hf2 : findRec
        (updateRec store i1 { r1 with status := .approved, approved_by := some op }) i2 =
        some r2 := by
      rw [findRec_updateRec_other hv1 h21]
      exact h2
    have hstep2 : bulkStep op
        (updateRec store i1 { r1 with status := .approved, approved_by := some op },
         1, 0, []) i2 =
        (updateRec
          (updateRec store i1 { r1 with status := .approved, approved_by := some op })
          i2 { r2 with status := .approved, approved_by := some op }, 2, 0, []) := by
      simp [bulkStep, hf2, h2s]
    have hf3 : findRec
        (updateRec
          (updateRec store i1 { r1 with status := .approved, approved_by := some op })
          i2 { r2 with status := .approved, approved_by := some op }) i3 = none := by
      rw [findRec_updateRec_other hv2 h32, findRec_updateRec_other hv1 h31]
      exact h3
    have hstep3 : bulkStep op
        (updateRec
          (updateRec store i1 { r1 with status := .approved, approved_by := some op })
          i2 { r2 with status := .approved, approved_by := some op }, 2, 0, []) i3 =
        (updateRec
          (updateRec store i1 { r1 with status := .approved, approved_by := some op })
          i2 { r2 with status := .approved, approved_by := some op }, 2, 1,
         [bulkErrNotFound i3]) := by
      simp [bulkStep, hf3]
    have hf4 : findRec
        (updateRec
          (updateRec store i1 { r1 with status := .approved, approved_by := some op })
          i2 { r2 with status := .approved, approved_by := some op }) i4 = some r4 := by
      rw [findRec_updateRec_other hv2 h42, findRec_updateRec_other hv1 h41]
      exact h4
    have hstep4 : bulkStep op
        (updateRec
          (updateRec store i1 { r1 with status := .approved, approved_by := some op })
          i2 { r2 with status := .approved, approved_by := some op }, 2, 1,
         [bulkErrNotFound i3]) i4 =
        (updateRec
          (updateRec store i1 { r1 with status := .approved, approved_by := some op })
          i2 { r2 with status := .approved, approved_by := some op }, 2, 2,
         [bulkErrNotFound i3, bulkErrNotPending i4 RecStatus.approved]) := by
      simp [bulkStep, hf4, h4s]
    refine ⟨updateRec
        (updateRec store i1 { r1 with status := .approved, approved_by := some op })
        i2 { r2 with status := .approved, approved_by := some op }, ?_, ?_, ?_⟩
    · unfold bulk_approve_recommendations
      rw [List.foldl_cons, hstep1, List.foldl_cons, hstep2, List.foldl_cons, hstep3,
        List.foldl_cons, hstep4, List.foldl_nil]
      rfl
    · rw [findRec_updateRec_other hv2 h12,
        findRec_updateRec_self hv1 (by rw [h1]; rfl)]
      rfl
    · rw [findRec_updateRec_self hv2 (by rw [hf2]; rfl)]
      rfl

/-- C4 (witness): the example shape applied to a concrete store with
ids `["a", "b", "ghost", "d"]`. -/
theorem claim_C4_witness :
    ∃ store',
      bulk_approve_recommendations [samplePendingA, samplePendingB, sampleApprovedD]
          ["a", "b", "ghost", "d"] ("op1") =
        .ok (⟨2, 2, [bulkErrNotFound ("ghost"),
                     bulkErrNotPending ("d") .approved]⟩, store') ∧
      (findRec store' "a").map Rec.status = some .approved ∧
      (findRec store' "b").map Rec.status = some .approved :=
  claim_C4_bulk_approve.2 [samplePendingA, samplePendingB, sampleApprovedD]
    "a" "b" "ghost" "d" "op1" samplePendingA samplePendingB sampleApprovedD
    (by decide) rfl (by decide) rfl (by decide) (by decide) (by decide) rfl

/-! ## Persona helper lemmas -/

/-- The function `pickTop` returns the first element of maximal priority. -/
lemma pickTop_isFirstMax : ∀ (rest : List MatchedPersona) (m : MatchedPersona),
    IsFirstMax (pickTop m rest) (m :: rest) := by
  intro rest
  induction rest with
  | nil =>
    intro m
    exact ⟨List.mem_cons_self m [], by simp [pickTop],
      [], [], by simp [pickTop], by simp⟩
  | cons x rest ih =>
    intro m
    by_cases hx : x.priority > m.priority
    · rw [show pickTop m (x :: rest) = pickTop x rest from by simp [pickTop, hx]]
      obtain ⟨hmem, hmax, l₁, l₂, heq, hlt⟩ := ih x
      have hxt : x.priority ≤ (pickTop x rest).priority := hmax x (List.mem_cons_self x rest)
      refine ⟨List.mem_cons_of_mem _ hmem, ?_, m :: l₁, l₂,
        by rw [heq, List.cons_append], ?_⟩
      · intro y hy
        rcases List.mem_cons.mp hy with rfl | hy'
        · exact le_of_lt (lt_of_lt_of_le hx hxt)
        · exact hmax y hy'
      · intro y hy
        rcases List.mem_cons.mp hy with rfl | hy'
        · exact lt_of_lt_of_le hx hxt
        · exact hlt y hy'
    · push_neg at hx
      rw [show pickTop m (x :: rest) = pickTop m rest from by
        simp [pickTop, not_lt.mpr hx]]
      obtain ⟨hmem, hmax, l₁, l₂, heq, hlt⟩ := ih m
      have hmt : m.priority ≤ (pickTop m rest).priority := hmax m (List.mem_cons_self m rest)
      refine ⟨?_, ?_, ?_⟩
      · rcases List.mem_cons.mp hmem with h | hy'
        · rw [h]
          exact List.mem_cons_self _ _
        · exact List.mem_cons_of_mem _ (List.mem_cons_of_mem _ hy')
      · intro y hy
        rcases List.mem_cons.mp hy with rfl | hy'
        · exact hmt
        · rcases List.mem_cons.mp hy' with rfl | hy''
          · exact le_trans hx hmt
          · exact hmax y (List.mem_cons_of_mem _ hy'')
      · cases l₁ with
        | nil =>
          simp only [List.nil_append] at heq
          have hm : m = pickTop m rest := ((List.cons.injEq _ _ _ _).mp heq).1
          refine ⟨[], x :: rest, by rw [← hm]; rfl, by simp⟩
        | cons a l₁' =>
          simp only [List.cons_append] at heq
          have ha : m = a := ((List.cons.injEq _ _ _ _).mp heq).1
          have hrest : rest = l₁' ++ pickTop m rest :: l₂ :=
            ((List.cons.injEq _ _ _ _).mp heq).2
          have hmlt : m.priority < (pickTop m rest).priority := by
            have h := hlt a (List.mem_cons_self a l₁')
            rwa [← ha] at h
          refine ⟨m :: x :: l₁', l₂,
            by rw [List.cons_append, List.cons_append, ← hrest], ?_⟩
          intro y hy
          rcases List.mem_cons.mp hy with rfl | hy'
          · exact hmlt
          · rcases List.mem_cons.mp hy' with rfl | hy''
            · exact lt_of_le_of_lt hx hmlt
            · exact hlt y (List.mem_cons_of_mem _ hy'')

/-- If nothing in `rest` beats `m`, `pickTop` keeps `m`. -/
lemma pickTop_head (m : MatchedPersona) :
    ∀ rest : List MatchedPersona,
      (∀ x ∈ rest, ¬ x.priority > m.priority) → pickTop m rest = m := by
  intro rest
  induction rest with
  | nil => intro _; rfl
  | cons x rest ih =>
    intro h
    rw [show pickTop m (x :: rest) = pickTop m rest from by
      simp [pickTop, h x (List.mem_cons_self x rest)]]
    exact ih fun y hy => h y (List.mem_cons_of_mem _ hy)

/-- Every matched persona carries one of the six source priorities. -/
lemma matched_priority_values (ctx : PersonaCtx) (f : UserFeature) :
    ∀ x ∈ matchedPersonas ctx f,
      x.priority = 1 ∨ x.priority = 0.95 ∨ x.priority = 0.8 ∨ x.priority = 0.7 ∨
        x.priority = 0.6 ∨ x.priority = 0.5 := by
  intro x hx
  simp only [matchedPersonas, List.mem_append] at hx
  rcases hx with ((((h | h) | h) | h) | h)
  · split at h
    · rw [List.mem_singleton] at h
      subst h
      exact Or.inl rfl
    · simp at h
  · split at h
    · rw [List.mem_singleton] at h
      subst h
      dsimp only
      split
      · exact Or.inr (Or.inl rfl)
      · exact Or.inr (Or.inr (Or.inl rfl))
    · simp at h
  · split at h
    · rw [List.mem_singleton] at h
      subst h
      exact Or.inr (Or.inr (Or.inr (Or.inl rfl)))
    · simp at h
  · split at h
    · rw [List.mem_singleton] at h
      subst h
      exact Or.inr (Or.inr (Or.inr (Or.inr (Or.inl rfl))))
    · simp at h
  · split at h
    · rw [List.mem_singleton] at h
      subst h
      exact Or.inr (Or.inr (Or.inr (Or.inr (Or.inr rfl))))
    · simp at h

/-- Elements of `updateFirst` come from the list or are `f` of one. -/
lemma mem_updateFirst {α : Type} (p : α → Bool) (f : α → α) :
    ∀ (l : List α) (x : α), x ∈ updateFirst p f l → x ∈ l ∨ ∃ a, a ∈ l ∧ x = f a := by
  intro l
  induction l with
  | nil => intro x hx; simp [updateFirst] at hx
  | cons a rest ih =>
    intro x hx
    by_cases ha : p a
    · rw [show updateFirst p f (a :: rest) = f a :: rest from by simp [updateFirst, ha]]
        at hx
      rcases List.mem_cons.mp hx with rfl | hx'
      · exact Or.inr ⟨a, List.mem_cons_self a rest, rfl⟩
      · exact Or.inl (List.mem_cons_of_mem _ hx')
    · rw [show updateFirst p f (a :: rest) = a :: updateFirst p f rest from by
        simp [updateFirst, ha]] at hx
      rcases List.mem_cons.mp hx with rfl | hx'
      · exact Or.inl (List.mem_cons_self _ _)
      · rcases ih x hx' with h | ⟨b, hb, rfl⟩
        · exact Or.inl (List.mem_cons_of_mem _ h)
        · exact Or.inr ⟨b, List.mem_cons_of_mem _ hb, rfl⟩

/-! ## Claim C3 — persona priority selection -/

/-- C3: `assign_persona` collects all matching persona predicates and
returns the one with the highest priority, ties broken by the
priority-descending evaluation order (wealth_builder, high_utilization,
savings_builder, variable_income, subscription_heavy); in particular a
user matching both the `high_utilization` criteria with
`max_utilization = 0.85` and the `variable_income` criteria is assigned
`high_utilization` with priority 0.95. -/
theorem claim_C3_persona_priority :
    (∀ (ctx : PersonaCtx) (f : UserFeature) (m : MatchedPersona)
        (rest : List MatchedPersona),
        ctx.features = some f → matchedPersonas ctx f = m :: rest →
        assign_persona ctx =
          ⟨(pickTop m rest).type, (pickTop m rest).priority, m :: rest⟩ ∧
        IsFirstMax (pickTop m rest) (matchedPersonas ctx f)) ∧
    (∀ (ctx : PersonaCtx) (f : UserFeature),
        ctx.features = some f → f.max_utilization = some 0.85 →
        check_variable_income f = true →
        (assign_persona ctx).persona_type = "high_utilization" ∧
        (assign_persona ctx).confidence = 0.95) := by
  constructor
  · intro ctx f m rest hf hm
    constructor
    · simp [assign_persona, hf, hm]
    · rw [hm]
      exact pickTop_isFirstMax rest m
  · intro ctx f hf hmax hvar
    have hwb : check_wealth_builder ctx f = false := by
      simp only [check_wealth_builder, hmax, Option.getD_some]
      split_ifs with h1 h2 h3 h4 h5
      all_goals try rfl
      exact absurd (by norm_num : (0.85 : ℚ) > 0.20) h3
    have hhu : check_high_utilization f = true := by
      simp only [check_high_utilization, hmax, Option.getD_some]
      have : ((0.85 : ℚ) ≥ 0.50) = True := by norm_num
      simp [this]
    have hprio : (if f.max_utilization.getD 0 ≥ 0.80 then (0.95 : ℚ) else 0.8) = 0.95 := by
      rw [hmax, Option.getD_some, if_pos (by norm_num)]
    have hshape : matchedPersonas ctx f =
        ⟨"high_utilization", 0.95⟩ ::
          ((if check_savings_builder f then [⟨"savings_builder", 0.7⟩] else []) ++
           ((if check_variable_income f then [⟨"variable_income", 0.6⟩] else []) ++
            (if check_subscription_heavy f then [⟨"subscription_heavy", 0.5⟩] else []))) := by
      simp only [matchedPersonas, hwb, hhu, hprio, if_true, if_false,
        Bool.false_eq_true, List.nil_append, List.cons_append, ite_true, ite_false,
        reduceIte, List.singleton_append, List.append_assoc]
    have hrest : ∀ x ∈
        ((if check_savings_builder f then
            [(⟨"savings_builder", 0.7⟩ : MatchedPersona)] else []) ++
         ((if check_variable_income f then
            [(⟨"variable_income", 0.6⟩ : MatchedPersona)] else []) ++
          (if check_subscription_heavy f then
            [(⟨"subscription_heavy", 0.5⟩ : MatchedPersona)] else []))),
        ¬ x.priority > (⟨"high_utilization", (0.95 : ℚ)⟩ : MatchedPersona).priority := by
      intro x hx
      simp only [List.mem_append] at hx
      rcases hx with h | h | h <;> split at h <;>
        first
        | (rw [List.mem_singleton] at h; subst h; dsimp only; norm_num)
        | simp at h
    have htop : pickTop ⟨"high_utilization", 0.95⟩
        ((if check_savings_builder f then [⟨"savings_builder", 0.7⟩] else []) ++
         ((if check_variable_income f then [⟨"variable_income", 0.6⟩] else []) ++
          (if check_subscription_heavy f then [⟨"subscription_heavy", 0.5⟩] else []))) =
        ⟨"high_utilization", 0.95⟩ := pickTop_head _ _ hrest
    constructor <;> simp [assign_persona, hf, hshape, htop]

/-- C3 (witness): the priority example applied at a concrete context
whose snapshot has `max_utilization = 0.85`, a 60-day median pay gap and
a half-month cash-flow buffer. -/
theorem claim_C3_witness :
    (assign_persona samplePersonaCtx).persona_type = "high_utilization" ∧
    (assign_persona samplePersonaCtx).confidence = 0.95 :=
  claim_C3_persona_priority.2 samplePersonaCtx sampleHighUtilFeatures rfl rfl
    (by norm_num [check_variable_income, sampleHighUtilFeatures])

/-! ## Claim C10 — confidence invariant -/

/-- C10: every confidence produced by `assign_persona` (and therefore
every `confidence_score` written by `assign_and_save_persona`) lies in
the finite set {0.1, 0.2, 0.5, 0.6, 0.7, 0.8, 0.95, 1.0}, hence in
[0, 1]; every row of the saved store is either a pre-existing row or
carries exactly the computed confidence; and when a predicate matches,
the confidence is exactly the matched rule's priority. -/
theorem claim_C10_confidence_invariant :
    (∀ ctx : PersonaCtx,
        (assign_persona ctx).confidence ∈
          ([0.1, 0.2, 0.5, 0.6, 0.7, 0.8, 0.95, 1] : List ℚ) ∧
        0 ≤ (assign_persona ctx).confidence ∧ (assign_persona ctx).confidence ≤ 1) ∧
    (∀ (ctx : PersonaCtx) (store : List PersonaRow) (uid : String) (w : Int),
        ∀ row ∈ (assign_and_save_persona ctx store uid w).2,
          row ∈ store ∨ row.confidence_score = (assign_persona ctx).confidence) ∧
    (∀ (ctx : PersonaCtx) (f : UserFeature) (m : MatchedPersona)
        (rest : List MatchedPersona),
        ctx.features = some f → matchedPersonas ctx f = m :: rest →
        (assign_persona ctx).confidence = (pickTop m rest).priority) := by
  have hmem : ∀ ctx : PersonaCtx,
      (assign_persona ctx).confidence ∈
        ([0.1, 0.2, 0.5, 0.6, 0.7, 0.8, 0.95, 1] : List ℚ) := by
    intro ctx
    cases hf : ctx.features with
    | none => simp [assign_persona, hf]
    | some f =>
      cases hm : matchedPersonas ctx f with
      | nil => simp [assign_persona, hf, hm]
      | cons m rest =>
        have hconf : (assign_persona ctx).confidence = (pickTop m rest).priority := by
          simp [assign_persona, hf, hm]
        have htop : pickTop m rest ∈ m :: rest := (pickTop_isFirstMax rest m).1
        rw [← hm] at htop
        rw [hconf]
        rcases matched_priority_values ctx f _ htop with h | h | h | h | h | h <;>
          rw [h] <;> simp
  have hmem' : ∀ ctx : PersonaCtx,
      (assign_persona ctx).confidence = 0.1 ∨ (assign_persona ctx).confidence = 0.2 ∨
      (assign_persona ctx).confidence = 0.5 ∨ (assign_persona ctx).confidence = 0.6 ∨
      (assign_persona ctx).confidence = 0.7 ∨ (assign_persona ctx).confidence = 0.8 ∨
      (assign_persona ctx).confidence = 0.95 ∨ (assign_persona ctx).confidence = 1 := by
    intro ctx
    have h := hmem ctx
    simpa only [List.mem_cons, List.not_mem_nil, or_false] using h
  refine ⟨fun ctx => ⟨hmem ctx, ?_, ?_⟩, ?_, ?_⟩
  · rcases hmem' ctx with h | h | h | h | h | h | h | h <;> rw [h] <;> norm_num
  · rcases hmem' ctx with h | h | h | h | h | h | h | h <;> rw [h] <;> norm_num
  · intro ctx store uid w row hrow
    unfold assign_and_save_persona create_or_update_persona at hrow
    dsimp only at hrow
    split at hrow
    · rcases mem_updateFirst _ _ store row hrow with h | ⟨a, _, rfl⟩
      · exact Or.inl h
      · exact Or.inr rfl
    · rcases List.mem_append.mp hrow with h | h
      · exact Or.inl h
      · rw [List.mem_singleton] at h
        subst h
        exact Or.inr rfl
  · intro ctx f m rest hf hm
    simp [assign_persona, hf, hm]

/-- C10 (witness): the matched-priority clause applied at the concrete
high-utilization context (two predicates match; the stored confidence is
the top priority 0.95). -/
theorem claim_C10_witness :
    (assign_persona samplePersonaCtx).confidence =
      (pickTop ⟨"high_utilization", 0.95⟩ [⟨"variable_income", 0.6⟩]).priority :=
  claim_C10_confidence_invariant.2.2 samplePersonaCtx sampleHighUtilFeatures
    ⟨"high_utilization", 0.95⟩ [⟨"variable_income", 0.6⟩] rfl
    (by norm_num [matchedPersonas, check_wealth_builder, check_high_utilization,
      check_savings_builder, check_variable_income, check_subscription_heavy,
      sampleHighUtilFeatures])

/-! ## Claim C8 — product eligibility -/

/-- C8 (counterexample): the claim makes "utilization exceeds the
product's max-utilization threshold" a failing rule, but the code skips
the check whenever the threshold is not strictly below 1.0: a product
with threshold 1.0 is reported eligible for a user at utilization 3/2,
although the claim's rule condition holds. -/
theorem claim_C8_counterexample :
    (check_product_eligibility sampleThresholdOneProduct sampleOverLimitFeatures []).1
      = true ∧
    eligFailsSpecClaim sampleThresholdOneProduct sampleOverLimitFeatures [] := by
  constructor
  · norm_num [check_product_eligibility, sampleThresholdOneProduct,
      sampleOverLimitFeatures]
  · exact Or.inr (Or.inl ⟨1, rfl, by norm_num [sampleOverLimitFeatures]⟩)

/-- C8 (amended): product eligibility returns ineligible with a reason
exactly when one of the composed rules fails — income below a positive
`min_income`, utilization above a threshold that is nonzero and strictly
below 1.0, a required-absent savings (resp. investment) account held, or
a balance-transfer product at utilization below 0.30 — and otherwise
returns `(True, "Eligible")`. -/
theorem claim_C8_product_eligibility (product : ProductOffer) (features : UserFeature)
    (accounts : List Account) :
    ((check_product_eligibility product features accounts).1 = false ↔
      eligFailsAmended product features accounts) ∧
    ((check_product_eligibility product features accounts).1 = true →
      check_product_eligibility product features accounts = (true, .eligible)) := by
  have g1 : (product.min_income.getD 0 ≠ 0 ∧ product.min_income.getD 0 > 0 ∧
      features.avg_monthly_income.getD 0 < product.min_income.getD 0) ↔
      (∃ m, product.min_income = some m ∧ 0 < m ∧
        features.avg_monthly_income.getD 0 < m) := by
    cases hmi : product.min_income with
    | none => simp
    | some m =>
      simp only [Option.getD_some, Option.some.injEq]
      constructor
      · rintro ⟨_, h2, h3⟩
        exact ⟨m, rfl, h2, h3⟩
      · rintro ⟨m', rfl, h2, h3⟩
        exact ⟨ne_of_gt h2, h2, h3⟩
  have g2 : (product.max_credit_utilization.getD 0 ≠ 0 ∧
      product.max_credit_utilization.getD 0 < 1 ∧
      features.avg_utilization.getD 0 > product.max_credit_utilization.getD 0) ↔
      (∃ t, product.max_credit_utilization = some t ∧ t ≠ 0 ∧ t < 1 ∧
        features.avg_utilization.getD 0 > t) := by
    cases hcu : product.max_credit_utilization with
    | none => simp
    | some t =>
      simp only [Option.getD_some, Option.some.injEq]
      constructor
      · rintro ⟨h1, h2, h3⟩
        exact ⟨t, rfl, h1, h2, h3⟩
      · rintro ⟨t', rfl, h1, h2, h3⟩
        exact ⟨h1, h2, h3⟩
  have g3 : (product.requires_no_existing_savings = true ∧
      (accounts.any fun a => savings_account_types.contains a.type) = true) ↔
      (product.requires_no_existing_savings = true ∧
        ∃ a ∈ accounts, a.type ∈ savings_account_types) := by
    simp [List.any_eq_true]
  have g4 : (product.requires_no_existing_investment = true ∧
      (accounts.any fun a => a.type == "investment") = true) ↔
      (product.requires_no_existing_investment = true ∧
        ∃ a ∈ accounts, a.type = "investment") := by
    simp [List.any_eq_true]
  have g5 : ((product.category == "balance_transfer") = true ∧
      features.avg_utilization.getD 0 < 0.3) ↔
      (product.category = "balance_transfer" ∧
        features.avg_utilization.getD 0 < 0.3) := by
    simp
  constructor
  · unfold check_product_eligibility
    dsimp only
    split_ifs with h1 h2 h3 h4 h5
    · exact iff_of_true rfl (Or.inl (g1.mp h1))
    · exact iff_of_true rfl (Or.inr (Or.inl (g2.mp h2)))
    · exact iff_of_true rfl (Or.inr (Or.inr (Or.inl (g3.mp h3))))
    · exact iff_of_true rfl (Or.inr (Or.inr (Or.inr (Or.inl (g4.mp h4)))))
    · exact iff_of_true rfl (Or.inr (Or.inr (Or.inr (Or.inr (g5.mp h5)))))
    · refine iff_of_false (by simp) ?_
      rintro (d | d | d | d | d)
      · exact h1 (g1.mpr d)
      · exact h2 (g2.mpr d)
      · exact h3 (g3.mpr d)
      · exact h4 (g4.mpr d)
      · exact h5 (g5.mpr d)
  · unfold check_product_eligibility
    dsimp only
    split_ifs <;> intro h <;> first | rfl | simp at h

/-- C8 (witness): the "otherwise eligible" clause applied to a concrete
balance-transfer product and a user at utilization 0.8. -/
theorem claim_C8_witness :
    check_product_eligibility sampleBtProduct sampleBtFeatures [] = (true, .eligible) :=
  (claim_C8_product_eligibility sampleBtProduct sampleBtFeatures []).2
    (by norm_num [check_product_eligibility, sampleBtProduct, sampleBtFeatures])

/-! ## Product-matching helper lemmas -/

/-- Descending-score order, as used by the sort. -/
def ScoreDesc (a b : ProductMatch) : Prop := b.relevance_score ≤ a.relevance_score

lemma mem_insertDescScore {x m : ProductMatch} :
    ∀ {l : List ProductMatch}, x ∈ insertDescScore m l ↔ x = m ∨ x ∈ l := by
  intro l
  induction l with
  | nil => simp [insertDescScore]
  | cons y rest ih =>
    by_cases h : m.relevance_score ≥ y.relevance_score
    · simp [insertDescScore, h, List.mem_cons]
    · simp only [insertDescScore, h, if_false, List.mem_cons, ih]
      tauto

lemma pairwise_insertDescScore {m : ProductMatch} :
    ∀ {l : List ProductMatch}, l.Pairwise ScoreDesc →
      (insertDescScore m l).Pairwise ScoreDesc := by
  intro l
  induction l with
  | nil => intro _; simp [insertDescScore, List.pairwise_singleton]
  | cons y rest ih =>
    intro hp
    obtain ⟨hy, hrest⟩ := List.pairwise_cons.mp hp
    by_cases h : m.relevance_score ≥ y.relevance_score
    · rw [show insertDescScore m (y :: rest) = m :: y :: rest from by
        simp [insertDescScore, h]]
      refine List.pairwise_cons.mpr ⟨?_, hp⟩
      intro b hb
      rcases List.mem_cons.mp hb with rfl | hb'
      · exact h
      · exact le_trans (hy b hb') h
    · rw [show insertDescScore m (y :: rest) = y :: insertDescScore m rest from by
        simp [insertDescScore, h]]
      refine List.pairwise_cons.mpr ⟨?_, ih hrest⟩
      intro b hb
      rcases mem_insertDescScore.mp hb with rfl | hb'
      · exact le_of_lt (not_le.mp h)
      · exact hy b hb'

lemma sortDesc_pairwise : ∀ l : List ProductMatch,
    (sortDescByScore l).Pairwise ScoreDesc := by
  intro l
  induction l with
  | nil => simp [sortDescByScore]
  | cons m rest ih => exact pairwise_insertDescScore ih

lemma mem_sortDescByScore {x : ProductMatch} :
    ∀ {l : List ProductMatch}, x ∈ sortDescByScore l ↔ x ∈ l := by
  intro l
  induction l with
  | nil => simp [sortDescByScore]
  | cons m rest ih =>
    simp only [sortDescByScore, mem_insertDescScore, ih, List.mem_cons]

/-! ## Claim C9 — product matching -/

/-- C9: `match_products` returns at most 3 products; the returned list
is sorted by relevance score descending; and every returned product has
relevance score ≥ 0.5 and corresponds to an active catalog product whose
persona-target list contains the suffix-stripped persona and which
passed guardrail product-eligibility filtering. -/
theorem claim_C9_match_products (catalog : List ProductOffer) (accounts : List Account)
    (persona_type : String) (features : UserFeature)
    (hnodup : (catalog.map (·.product_id)).Nodup) :
    (match_products catalog accounts persona_type features).length ≤ 3 ∧
    (match_products catalog accounts persona_type features).Pairwise ScoreDesc ∧
    ∀ m ∈ match_products catalog accounts persona_type features,
      m.relevance_score ≥ 0.5 ∧
      ∃ p ∈ catalog, p.product_id = m.product_id ∧ p.active = true ∧
        stripPersonaSuffix persona_type ∈ p.persona_targets ∧
        (check_product_eligibility p features accounts).1 = true := by
  unfold match_products filter_eligible_products
  dsimp only
  refine ⟨?_, ?_, ?_⟩
  · rw [List.length_take]
    exact min_le_left _ _
  · exact ((sortDesc_pairwise _).sublist (List.filter_sublist _)).sublist
      (List.take_sublist 3 _)
  · intro m hm
    have hm1 := (List.take_sublist 3 _).subset hm
    obtain ⟨hm2, hpred⟩ := List.mem_filter.mp hm1
    have hm3 := mem_sortDescByScore.mp hm2
    obtain ⟨hm4, hscore⟩ := List.mem_filter.mp hm3
    have hsc : m.relevance_score ≥ 0.5 := of_decide_eq_true hscore
    obtain ⟨q, hq_cand, rfl⟩ := List.mem_map.mp hm4
    obtain ⟨hq_act, htargets⟩ := List.mem_filter.mp hq_cand
    obtain ⟨hq_cat, hactive⟩ := List.mem_filter.mp hq_act
    cases hfind : catalog.find? (fun p =>
        p.product_id == (ProductMatch.mk q.product_id q.category
          (calculate_relevance_score q features accounts)).product_id) with
    | none =>
      rw [hfind] at hpred
      exact absurd hpred (by simp)
    | some p =>
      rw [hfind] at hpred
      have hp_mem : p ∈ catalog := List.mem_of_find?_eq_some hfind
      have hp_id : p.product_id = q.product_id := by
        simpa using List.find?_some hfind
      have hpq : p = q := List.inj_on_of_nodup_map hnodup hp_mem hq_cat hp_id
      subst hpq
      exact ⟨hsc, p, hp_mem, rfl, hactive, List.elem_iff.mp htargets, hpred⟩

/-- C9 (witness): the guarantees applied to a concrete one-product
catalog, the `high_utilization_30d` persona and utilization-0.8
features. -/
theorem claim_C9_witness :
    (match_products [sampleBtProduct] [] ("high_utilization_30d") sampleBtFeatures).length
      ≤ 3 ∧
    (match_products [sampleBtProduct] [] ("high_utilization_30d")
      sampleBtFeatures).Pairwise ScoreDesc ∧
    ∀ m ∈ match_products [sampleBtProduct] [] ("high_utilization_30d") sampleBtFeatures,
      m.relevance_score ≥ 0.5 ∧
      ∃ p ∈ [sampleBtProduct], p.product_id = m.product_id ∧ p.active = true ∧
        stripPersonaSuffix ("high_utilization_30d") ∈ p.persona_targets ∧
        (check_product_eligibility p sampleBtFeatures []).1 = true :=
  claim_C9_match_products [sampleBtProduct] [] "high_utilization_30d" sampleBtFeatures
    (by decide)

/-! ## Upsert helper lemmas -/

lemma find?_of_filter_eq_nil {α : Type} {p : α → Bool} {l : List α}
    (h : l.filter p = []) : l.find? p = none :=
  List.find?_eq_none.mpr (List.filter_eq_nil_iff.mp h)

lemma find?_of_filter_singleton {α : Type} {p : α → Bool} :
    ∀ {l : List α} {r : α}, l.filter p = [r] → l.find? p = some r := by
  intro l
  induction l with
  | nil => intro r h; simp [List.filter] at h
  | cons a rest ih =>
    intro r h
    by_cases ha : p a = true
    · rw [List.filter_cons_of_pos ha] at h
      obtain ⟨rfl, -⟩ := (List.cons.injEq _ _ _ _).mp h
      exact List.find?_cons_of_pos _ ha
    · rw [List.filter_cons_of_neg (by simpa using ha)] at h
      rw [List.find?_cons_of_neg _ (by simpa using ha)]
      exact ih h

lemma filter_updateFirst_singleton {α : Type} {p : α → Bool} {f : α → α}
    (hpres : ∀ x, p x = true → p (f x) = true) :
    ∀ {l : List α} {r : α}, l.filter p = [r] →
      (updateFirst p f l).filter p = [f r] := by
  intro l
  induction l with
  | nil => intro r h; simp [List.filter] at h
  | cons a rest ih =>
    intro r h
    by_cases ha : p a = true
    · rw [List.filter_cons_of_pos ha] at h
      obtain ⟨rfl, hrest⟩ := (List.cons.injEq _ _ _ _).mp h
      rw [show updateFirst p f (a :: rest) = f a :: rest from by simp [updateFirst, ha]]
      rw [List.filter_cons_of_pos (hpres a ha), hrest]
    · rw [List.filter_cons_of_neg (by simpa using ha)] at h
      rw [show updateFirst p f (a :: rest) = a :: updateFirst p f rest from by
        simp [updateFirst, ha]]
      rw [List.filter_cons_of_neg (by simpa using ha)]
      exact ih h

/-- After one upsert with at most one pre-existing keyed row, the keyed
rows are exactly the one freshly written row. -/
lemma upsert_filter {rows : List FeatureRow} {user_id : String} {window_days : Int}
    {v : UserFeature}
    (hlen : (rows.filter (featKey user_id window_days)).length ≤ 1) :
    (upsertFeatureRow rows user_id window_days v).filter (featKey user_id window_days) =
      [⟨user_id, window_days, v⟩] := by
  have hpres : ∀ x : FeatureRow, featKey user_id window_days x = true →
      featKey user_id window_days { x with features := v } = true := by
    intro x hx
    simpa [featKey] using hx
  cases hfil : rows.filter (featKey user_id window_days) with
  | nil =>
    unfold upsertFeatureRow
    rw [find?_of_filter_eq_nil hfil]
    rw [List.filter_append, hfil]
    rw [List.filter_cons_of_pos (by simp [featKey])]
    rfl
  | cons r tail =>
    have htail : tail = [] := by
      rw [hfil] at hlen
      simp only [List.length_cons] at hlen
      exact List.length_eq_zero.mp (by omega)
    subst htail
    have hkey : featKey user_id window_days r = true := by
      have hr : r ∈ rows.filter (featKey user_id window_days) := by
        rw [hfil]
        exact List.mem_cons_self r []
      exact (List.mem_filter.mp hr).2
    unfold upsertFeatureRow
    rw [find?_of_filter_singleton hfil]
    rw [filter_updateFirst_singleton hpres hfil]
    have hu : r.user_id = user_id := by
      simpa [featKey] using (by simpa [featKey] using hkey : _ ∧ _).1
    have hw : r.window_days = window_days := by
      simpa [featKey] using (by simpa [featKey] using hkey : _ ∧ _).2
    cases r with
    | mk ru rw' rf =>
      simp only at hu hw
      rw [hu, hw]

/-! ## Claim C6 — idempotent feature upsert -/

/-- C6: running `compute_all_features` twice in succession for the same
`(user, window)` over an otherwise unchanged store is idempotent — the
second call returns the same values as the first, and afterwards the
store holds exactly one `UserFeature` row for that key, whose signal
values equal the second call's returned output (prior values are fully
replaced, never merged). -/
theorem claim_C6_idempotent_upsert (db : DB) (user_id : String) (window_days : Int)
    (hwf : (db.user_features.filter (featKey user_id window_days)).length ≤ 1) :
    (compute_all_features (compute_all_features db user_id window_days).2 user_id
        window_days).1 = (compute_all_features db user_id window_days).1 ∧
    ((compute_all_features (compute_all_features db user_id window_days).2 user_id
        window_days).2.user_features.filter (featKey user_id window_days)) =
      [⟨user_id, window_days,
        (compute_all_features (compute_all_features db user_id window_days).2 user_id
          window_days).1⟩] := by
  refine ⟨rfl, ?_⟩
  have h1 : (compute_all_features db user_id window_days).2.user_features =
      upsertFeatureRow db.user_features user_id window_days
        (compute_all_features db user_id window_days).1 := rfl
  have hfil1 : ((compute_all_features db user_id window_days).2.user_features.filter
      (featKey user_id window_days)) =
      [⟨user_id, window_days, (compute_all_features db user_id window_days).1⟩] := by
    rw [h1]
    exact upsert_filter hwf
  have hlen1 : ((compute_all_features db user_id window_days).2.user_features.filter
      (featKey user_id window_days)).length ≤ 1 := by
    rw [hfil1]
    simp
  exact upsert_filter hlen1

/-- C6 (witness): the idempotence theorem applied to the empty store. -/
theorem claim_C6_witness :
    (compute_all_features (compute_all_features ⟨0, [], [], [], []⟩ "u1" 30).2 "u1"
        30).1 = (compute_all_features ⟨0, [], [], [], []⟩ "u1" 30).1 ∧
    ((compute_all_features (compute_all_features ⟨0, [], [], [], []⟩ "u1" 30).2 "u1"
        30).2.user_features.filter (featKey "u1" 30)) =
      [⟨"u1", 30,
        (compute_all_features (compute_all_features ⟨0, [], [], [], []⟩ "u1" 30).2 "u1"
          30).1⟩] :=
  claim_C6_idempotent_upsert ⟨0, [], [], [], []⟩ "u1" 30 (by simp)

end SpendSense
